import Mathlib

/-!
Verification development for the Academic-Advisor repository.

Shallow embedding of the core of `src/advisor/enhanced_ai_advisor.py`
(class `EnhancedAIAdvisor`): the query normalizer / intent classifier,
the relevance scorer, the schedule synthesizer and the timetable
conflict detector, together with theorems about the specified
properties.

Modelling conventions, used throughout:
* Python strings are Lean `String`s; every string primitive the source
  uses (`lower`, `strip`, `split`, `in`, `replace`, `startswith`) is
  re-implemented below on `List Char` so that all definitions reduce in
  the kernel.  The source only ever feeds ASCII text to `lower`, so the
  ASCII case map is the faithful translation.
* A pandas `DataFrame` of course rows is a `List Course`; a course dict
  is a `Course` record.  A key that may be absent in the Python dict is
  modelled by its field holding the default value that the source
  supplies at each `.get(key, default)` site.
* Fallible code (the out-of-bounds `iloc` accesses reachable in
  `generate_smart_schedule`) returns `Option`.
-/

/-- ASCII lower-casing of one character, the case `str.lower` performs on
the ASCII queries and labels this program handles. -/
def lowerChar (c : Char) : Char :=
  if 'A' ≤ c ∧ c ≤ 'Z' then Char.ofNat (c.toNat + 32) else c

/-- Python-style whitespace test (the characters `str.split` and
`str.strip` treat as separators in this program's inputs). -/
def isSpaceChar (c : Char) : Bool :=
  c = ' ' || c = '\t' || c = '\n' || c = '\r'

/-- Does `p` occur at the very start of `l`? (`str.startswith`). -/
def listPre : List Char → List Char → Bool
  | [], _ => true
  | _ :: _, [] => false
  | p :: ps, c :: cs => p = c && listPre ps cs

/-- Does `needle` occur somewhere inside `hay`? (Python's `in` on
strings; the empty needle occurs in every string, as in Python.) -/
def occursIn (needle : List Char) : List Char → Bool
  | [] => listPre needle []
  | c :: cs => listPre needle (c :: cs) || occursIn needle cs

/-- Python `a in b` on strings (note the Python operand order: needle first). -/
def inS (needle hay : String) : Bool :=
  occursIn needle.data hay.data

/-- Python `s.lower()` (ASCII). -/
def lowerS (s : String) : String :=
  ⟨s.data.map lowerChar⟩

/-- Python `s.strip()`. -/
def stripS (s : String) : String :=
  ⟨((s.data.dropWhile isSpaceChar).reverse.dropWhile isSpaceChar).reverse⟩

/-- Python `s.startswith(p)`. -/
def startsS (s p : String) : Bool :=
  listPre p.data s.data

/-- Helper for `wordsOf`: accumulates the current word reversed. -/
def wordsAux : List Char → List Char → List (List Char)
  | [], cur => if cur = [] then [] else [cur.reverse]
  | c :: cs, cur =>
    if isSpaceChar c then
      if cur = [] then wordsAux cs [] else cur.reverse :: wordsAux cs []
    else wordsAux cs (c :: cur)

/-- Python `s.split()`: split on whitespace runs, dropping empty words. -/
def wordsOf (s : String) : List String :=
  (wordsAux s.data []).map fun w => ⟨w⟩

/-- One step of `str.replace`: fuel-bounded scan.  Each step either
consumes one character of `s` or (on a match of the non-empty pattern)
at least one, so fuel `s.length` suffices; the result then agrees with
Python's left-to-right non-overlapping `replace`. -/
def replFuel (pat rep : List Char) : Nat → List Char → List Char
  | _, [] => []
  | 0, s => s
  | n + 1, c :: cs =>
    if pat ≠ [] ∧ listPre pat (c :: cs) then
      rep ++ replFuel pat rep n ((c :: cs).drop pat.length)
    else
      c :: replFuel pat rep n cs

/-- Python `s.replace(pat, rep)`. -/
def replaceS (s pat rep : String) : String :=
  ⟨replFuel pat.data rep.data s.data.length s.data⟩

/-- A corpus row / course dict.  Fields are the columns the advisor
reads; a missing key is modelled by the default the source supplies at
its `.get` site (`''` for the string columns used with `.get(c, '')`). -/
structure Course where
  courseId : String
  courseName : String
  courseDescription : String
  category : String
  programName : String
  skillsCoveredStr : String
  estimatedDifficulty : String
  courseType : String
  classTime : String
  level : String
  credits : Nat
deriving Repr, DecidableEq

/-!
## Timetable conflict detector (`check_timetable_conflict`,
`get_all_timetable_conflicts`, lines 2288-2343)
-/

/-- Source `check_timetable_conflict(enrolled_courses, new_course)`:
returns `(has_conflict, conflicting_course_names)`. -/
def checkTimetableConflict (enrolledCourses : List Course) (newCourse : Course) :
    Bool × List String :=
  if enrolledCourses = [] then (false, [])
  else
    let newTime := newCourse.classTime
    if newTime = "" then (false, [])
    else
      let conflicting :=
        (enrolledCourses.filter fun c => c.classTime ≠ "" && c.classTime = newTime).map
          (·.courseName)
      (conflicting.length > 0, conflicting)

/-- A conflict triple `(course1_name, course2_name, time)`. -/
abbrev Conflict := String × String × String

/-- Append one course name to the (insertion-ordered) time-slot group
map, creating the group on first occurrence of the slot — the dict
update in `get_all_timetable_conflicts`. -/
def addToGroups : List (String × List String) → String → String →
    List (String × List String)
  | [], t, n => [(t, [n])]
  | (k, v) :: rest, t, n =>
    if k = t then (k, v ++ [n]) :: rest else (k, v) :: addToGroups rest t n

/-- All ordered pairs `i < j` of one group, as the double loop emits
them. -/
def pairsOf (t : String) : List String → List Conflict
  | [] => []
  | n :: rest => (rest.map fun m => (n, m, t)) ++ pairsOf t rest

/-- The per-course grouping step of `get_all_timetable_conflicts`:
courses with an empty `class_time` are skipped. -/
def stepGroups (gs : List (String × List String)) (c : Course) :
    List (String × List String) :=
  if c.classTime ≠ "" then addToGroups gs c.classTime c.courseName else gs

/-- Source `get_all_timetable_conflicts(course_list)`: group courses by
non-empty `class_time`, then emit every pair inside each group of size
`> 1`. -/
def getAllTimetableConflicts (courseList : List Course) : List Conflict :=
  let timeGroups := courseList.foldl stepGroups []
  timeGroups.foldl
    (fun acc g => if g.2.length > 1 then acc ++ pairsOf g.1 g.2 else acc) []

/-- Spec-side reference for C1 (from the spec's words, not the source):
"a triple for each unordered pair of distinct courses in the list whose
time-slot strings are equal", restricted to non-empty slots; the pair
`(i, j)` with `i < j` contributes `(name_i, name_j, slot)`.  `seen`
holds the already-passed prefix. -/
def specConflictsAux (seen : List Course) : List Course → List Conflict
  | [] => []
  | c :: l =>
    (if c.classTime ≠ "" then
      (seen.filter fun m => m.classTime = c.classTime).map
        (fun m => (m.courseName, c.courseName, c.classTime))
    else []) ++ specConflictsAux (seen ++ [c]) l

/-- Spec-side reference: all equal-non-empty-slot pairs of a list. -/
def specConflicts (l : List Course) : List Conflict :=
  specConflictsAux [] l

/-!
### Conflict-detector lemmas
-/

/-- All pairs of all groups (ignoring the size gate, which only ever
skips groups contributing no pairs anyway). -/
def flatPairs (g : List (String × List String)) : List Conflict :=
  (g.map fun p => pairsOf p.1 p.2).flatten

/-- The names currently stored for slot `t` (first-match lookup, `[]`
when the slot has no group yet). -/
def grpNames : List (String × List String) → String → List String
  | [], _ => []
  | (k, v) :: rest, t => if k = t then v else grpNames rest t

lemma pairsOf_short {t : String} {v : List String} (h : v.length ≤ 1) :
    pairsOf t v = [] := by
  match v, h with
  | [], _ => rfl
  | [n], _ => simp [pairsOf]

lemma foldl_gate_eq (g : List (String × List String)) (acc : List Conflict) :
    g.foldl (fun acc p => if p.2.length > 1 then acc ++ pairsOf p.1 p.2 else acc) acc
      = acc ++ flatPairs g := by
  induction g generalizing acc with
  | nil => simp [flatPairs]
  | cons p rest ih =>
    simp only [List.foldl_cons, flatPairs, List.map_cons, List.flatten_cons]
    rw [ih]
    by_cases h : p.2.length > 1
    · simp only [if_pos h, flatPairs, List.append_assoc]
    · rw [if_neg h, pairsOf_short (Nat.le_of_not_lt h)]
      simp [flatPairs]

lemma pairsOf_snoc (t : String) (ns : List String) (n : String) :
    List.Perm (pairsOf t (ns ++ [n])) (pairsOf t ns ++ ns.map (fun m => (m, n, t))) := by
  induction ns with
  | nil => simp [pairsOf]
  | cons m ns ih =>
    simp only [List.append_eq, List.cons_append, pairsOf, List.map_append, List.map_cons,
      List.map_nil, List.singleton_append, List.append_assoc]
    refine List.Perm.append_left _ ?_
    refine (List.Perm.cons _ ih).trans ?_
    exact List.perm_middle.symm

lemma grpNames_addToGroups_eq (g : List (String × List String)) (t n : String) :
    grpNames (addToGroups g t n) t = grpNames g t ++ [n] := by
  induction g with
  | nil => simp [addToGroups, grpNames]
  | cons p rest ih =>
    by_cases hk : p.1 = t
    · simp [addToGroups, grpNames, hk]
    · simp [addToGroups, grpNames, hk, ih]

lemma grpNames_addToGroups_ne (g : List (String × List String)) {u t : String} (n : String)
    (h : u ≠ t) : grpNames (addToGroups g u n) t = grpNames g t := by
  induction g with
  | nil => simp [addToGroups, grpNames, h]
  | cons p rest ih =>
    by_cases hk : p.1 = u
    · simp [addToGroups, grpNames, hk, h]
    · simp [addToGroups, grpNames, hk, ih]

lemma flatPairs_addToGroups (g : List (String × List String)) (t n : String) :
    List.Perm (flatPairs (addToGroups g t n))
      (flatPairs g ++ (grpNames g t).map (fun m => (m, n, t))) := by
  induction g with
  | nil => simp [addToGroups, flatPairs, grpNames, pairsOf]
  | cons p rest ih =>
    obtain ⟨k, v⟩ := p
    by_cases hk : k = t
    · subst hk
      simp only [addToGroups, if_pos rfl, flatPairs, List.map_cons, List.flatten_cons, grpNames]
      refine ((pairsOf_snoc k v n).append_right _).trans ?_
      simp only [List.append_assoc]
      exact List.Perm.append_left _ (List.perm_append_comm)
    · simp only [addToGroups, if_neg hk, flatPairs, List.map_cons, List.flatten_cons,
        grpNames, if_neg hk]
      refine (List.Perm.append_left _ ih).trans ?_
      simp only [flatPairs, List.append_assoc]
      exact List.Perm.refl _

lemma flatPairs_foldl_perm (l : List Course) :
    ∀ (g : List (String × List String)) (seen : List Course),
      (∀ t : String, t ≠ "" →
        grpNames g t = (seen.filter fun m => m.classTime = t).map (·.courseName)) →
      List.Perm (flatPairs (l.foldl stepGroups g)) (flatPairs g ++ specConflictsAux seen l) := by
  induction l with
  | nil => intro g seen _; simp [specConflictsAux]
  | cons c l ih =>
    intro g seen hInv
    simp only [List.foldl_cons, specConflictsAux]
    by_cases hc : c.classTime = ""
    · have hstep : stepGroups g c = g := by simp [stepGroups, hc]
      rw [hstep, if_neg (by simp [hc])]
      refine (ih g (seen ++ [c]) ?_).trans (by simp)
      intro t ht
      rw [hInv t ht, List.filter_append]
      have : List.filter (fun m => decide (m.classTime = t)) [c] = [] := by
        simp [List.filter, hc, Ne.symm ht]
      simp [this]
    · have hstep : stepGroups g c = addToGroups g c.classTime c.courseName := by
        simp [stepGroups, hc]
      rw [hstep, if_pos hc]
      have hInv2 : ∀ t : String, t ≠ "" →
          grpNames (addToGroups g c.classTime c.courseName) t =
            ((seen ++ [c]).filter fun m => m.classTime = t).map (·.courseName) := by
        intro t ht
        rw [List.filter_append]
        by_cases htc : c.classTime = t
        · subst htc
          rw [grpNames_addToGroups_eq, hInv _ ht]
          simp [List.filter]
        · rw [grpNames_addToGroups_ne _ _ htc, hInv t ht, List.filter_cons]
          simp [htc]
      refine (ih _ (seen ++ [c]) hInv2).trans ?_
      refine ((flatPairs_addToGroups g c.classTime c.courseName).append_right _).trans ?_
      rw [hInv _ hc, List.map_map, List.append_assoc]
      exact List.Perm.refl _

/-- The detector's grouped all-pairs scan emits, up to order, exactly
the equal-non-empty-slot pairs of the input list. -/
lemma conflicts_perm_spec (l : List Course) :
    List.Perm (getAllTimetableConflicts l) (specConflicts l) := by
  have h := flatPairs_foldl_perm l [] [] (by intro t _; simp [grpNames])
  simpa [getAllTimetableConflicts, foldl_gate_eq, flatPairs, specConflicts] using h

lemma specConflictsAux_slot_ne {tr : Conflict} :
    ∀ (l seen : List Course), tr ∈ specConflictsAux seen l → tr.2.2 ≠ "" := by
  intro l
  induction l with
  | nil => intro seen h; simp [specConflictsAux] at h
  | cons c l ih =>
    intro seen h
    simp only [specConflictsAux, List.mem_append] at h
    rcases h with h | h
    · by_cases hc : c.classTime = ""
      · simp [hc] at h
      · rw [if_pos hc] at h
        obtain ⟨m, _, hm⟩ := List.mem_map.1 h
        rw [← hm]
        exact hc
    · exact ih _ h

/-!
### Concrete courses used by witnesses and counterexamples
-/

/-- A course with no scheduled slot (empty `class_time`). -/
def courseNoSlotA : Course := ⟨"c1", "A", "", "", "", "", "", "", "", "", 0⟩

/-- A second course with no scheduled slot. -/
def courseNoSlotB : Course := ⟨"c2", "B", "", "", "", "", "", "", "", "", 0⟩

/-- A course in the morning window. -/
def courseMorningM : Course := ⟨"c3", "M", "", "", "", "", "", "", "9:00 AM - 12:20 PM", "", 0⟩

/-- A second course in the same morning window. -/
def courseMorningN : Course := ⟨"c4", "N", "", "", "", "", "", "", "9:00 AM - 12:20 PM", "", 0⟩

/-- C1, counterexample to the claim as stated: two courses whose
time-slot strings are equal (both empty) yield no conflict triple from
`get_all_timetable_conflicts`, and `check_timetable_conflict` reports
no conflict for a candidate whose slot string equals the enrolled
course's slot string — the detectors ignore empty slot strings, so
"emits a triple for exactly each pair with equal time-slot strings" is
false on this input. -/
theorem c1_counterexample :
    courseNoSlotA.classTime = courseNoSlotB.classTime ∧
    getAllTimetableConflicts [courseNoSlotA, courseNoSlotB] = [] ∧
    checkTimetableConflict [courseNoSlotA] courseNoSlotB = (false, []) :=
  ⟨rfl, rfl, rfl⟩

/-- C1 (amended: equality of *non-empty* time-slot strings): for a
candidate with a non-empty slot, `check_timetable_conflict` returns
exactly the names of the enrolled courses whose slot string equals the
candidate's, with the flag true iff that list is non-empty; and
`get_all_timetable_conflicts` emits, up to order, exactly one triple
per (earlier, later) pair of courses with equal non-empty slot strings
— pure string equality, no interval-overlap reasoning. -/
theorem c1_conflict_equality :
    (∀ (enrolled : List Course) (cand : Course), cand.classTime ≠ "" →
      (checkTimetableConflict enrolled cand).2 =
          ((enrolled.filter fun c => c.classTime = cand.classTime).map (·.courseName)) ∧
        ((checkTimetableConflict enrolled cand).1 = true ↔
          ((enrolled.filter fun c => c.classTime = cand.classTime).map (·.courseName)) ≠ [])) ∧
    (∀ l : List Course, List.Perm (getAllTimetableConflicts l) (specConflicts l)) := by
  constructor
  · intro enrolled cand hne
    by_cases he : enrolled = []
    · subst he; simp [checkTimetableConflict]
    · have hfil : enrolled.filter
            (fun c => decide ¬c.classTime = "" && decide (c.classTime = cand.classTime))
          = enrolled.filter (fun c => decide (c.classTime = cand.classTime)) := by
        apply List.filter_congr
        intro c _
        by_cases hceq : c.classTime = cand.classTime
        · simp [hceq, hne]
        · simp [hceq]
      have hpair : checkTimetableConflict enrolled cand =
          (decide (0 < ((enrolled.filter fun c => decide (c.classTime = cand.classTime)).map
              (·.courseName)).length),
            (enrolled.filter fun c => decide (c.classTime = cand.classTime)).map
              (·.courseName)) := by
        simp only [checkTimetableConflict, if_neg he, if_neg hne]
        rw [hfil]
      constructor
      · rw [hpair]
      · rw [hpair]
        simp [List.length_pos]
  · exact conflicts_perm_spec

/-- Witness for C1's amended theorem at a concrete enrolled set and
candidate sharing the morning slot. -/
theorem c1_conflict_equality_witness :
    ((checkTimetableConflict [courseMorningM] courseMorningN).2 =
        (([courseMorningM].filter fun c => c.classTime = courseMorningN.classTime).map
          (·.courseName)) ∧
      ((checkTimetableConflict [courseMorningM] courseMorningN).1 = true ↔
        (([courseMorningM].filter fun c => c.classTime = courseMorningN.classTime).map
          (·.courseName)) ≠ [])) ∧
    List.Perm (getAllTimetableConflicts [courseMorningM, courseMorningN])
      (specConflicts [courseMorningM, courseMorningN]) :=
  ⟨c1_conflict_equality.1 [courseMorningM] courseMorningN (by decide),
   c1_conflict_equality.2 [courseMorningM, courseMorningN]⟩

/-- C10: unscheduled courses are invisible to the conflict detector —
an empty enrolled set or an empty candidate slot yields `(false, [])`
from `check_timetable_conflict`, and every triple emitted by
`get_all_timetable_conflicts` carries a non-empty slot string. -/
theorem c10_unscheduled_invisible :
    (∀ cand : Course, checkTimetableConflict [] cand = (false, [])) ∧
    (∀ (enrolled : List Course) (cand : Course), cand.classTime = "" →
      checkTimetableConflict enrolled cand = (false, [])) ∧
    (∀ (l : List Course) (tr : Conflict), tr ∈ getAllTimetableConflicts l → tr.2.2 ≠ "") := by
  refine ⟨fun cand => rfl, ?_, ?_⟩
  · intro enrolled cand h
    by_cases he : enrolled = []
    · subst he; rfl
    · simp [checkTimetableConflict, he, h]
  · intro l tr htr
    have hmem : tr ∈ specConflicts l := ((conflicts_perm_spec l).mem_iff).1 htr
    exact specConflictsAux_slot_ne l [] (by simpa [specConflicts] using hmem)

/-- Witness for C10 at concrete inputs: empty enrolled set, slotless
candidate, and a triple actually emitted for a real shared slot. -/
theorem c10_unscheduled_invisible_witness :
    checkTimetableConflict [] courseMorningM = (false, []) ∧
    checkTimetableConflict [courseMorningM] courseNoSlotA = (false, []) ∧
    ((("M", "N", "9:00 AM - 12:20 PM") : Conflict).2.2 ≠ "") :=
  ⟨c10_unscheduled_invisible.1 courseMorningM,
   c10_unscheduled_invisible.2.1 [courseMorningM] courseNoSlotA rfl,
   c10_unscheduled_invisible.2.2 [courseMorningM, courseMorningN] _ (by decide)⟩

/-!
## Query normalizer and intent classifier (`_expand_query`,
`_fuzzy_match`, `_analyze_query_intent`, lines 314-531)
-/

/-- The fixed abbreviation / typo expansion table, in dict insertion
order (applied cumulatively to the same buffer). -/
def expansionsTable : List (String × String) :=
  [("ml", "machine learning"), ("ai", "artificial intelligence"),
   ("ds", "data science"), ("cs", "computer science"),
   ("cyber", "cybersecurity"), ("webdev", "web development"),
   ("db", "database"), ("dl", "deep learning"), ("nn", "neural network"),
   ("machne", "machine"), ("learing", "learning"), ("lecurer", "lecturer"),
   ("instuctor", "instructor"), ("proffesor", "professor"),
   ("scince", "science"), ("engeneer", "engineer"), ("devloper", "developer")]

/-- Apply all expansions, cumulatively, to an already lower-cased
buffer (the `for abbr, full in expansions.items()` loop). -/
def applyExpansions (q : String) : String :=
  expansionsTable.foldl (fun acc p => if inS p.1 acc then replaceS acc p.1 p.2 else acc) q

/-- Lower-case and trim, the first normalization step of both
`_expand_query` and `_analyze_query_intent`. -/
def normalizeQL (q : String) : String :=
  stripS (lowerS q)

/-- Normalized-and-expanded form of a query, the buffer the cascade
rules after the greeting checks run on. -/
def expandedOf (q : String) : String :=
  applyExpansions (normalizeQL q)

/-- Source `_expand_query(query)`. -/
def expandQuery : Option String → Option String
  | none => none
  | some q => if q = "" then some q else some (expandedOf q)

/-- Length of the common prefix of two character lists. -/
def comPre : List Char → List Char → Nat
  | a :: as, b :: bs => if a = b then comPre as bs + 1 else 0
  | _, _ => 0

/-- All candidate blocks `(i, j, run-length at (i, j))` of two
sequences, scanned in ascending `(i, j)` order. -/
def matchCands (a b : List Char) : List (Nat × Nat × Nat) :=
  ((List.range a.length).map fun i =>
    (List.range b.length).map fun j => (i, j, comPre (a.drop i) (b.drop j))).flatten

/-- Pick the longest block; the strict comparison keeps the earliest
`(i, j)` on ties, difflib's documented tie-break ("earliest in a, then
earliest in b"). -/
def pickBest : List (Nat × Nat × Nat) → Nat × Nat × Nat → Nat × Nat × Nat
  | [], best => best
  | c :: cs, best => pickBest cs (if best.2.2 < c.2.2 then c else best)

/-- Total size of `difflib.SequenceMatcher.get_matching_blocks` (no
junk: the fuzzy keywords are far below the autojunk threshold):
recursively take the longest matching block and recurse on both sides.
Fuel-bounded; each recursive call strictly shrinks `a.length +
b.length`, so the fuel supplied by `seqMatchM` always suffices. -/
def matchTotal : Nat → List Char → List Char → Nat
  | 0, _, _ => 0
  | fuel + 1, a, b =>
    let best := pickBest (matchCands a b) (0, 0, 0)
    if best.2.2 = 0 then 0
    else
      best.2.2 + matchTotal fuel (a.take best.1) (b.take best.2.1) +
        matchTotal fuel (a.drop (best.1 + best.2.2)) (b.drop (best.2.1 + best.2.2))

/-- Matched-element total `M` of `SequenceMatcher(None, a, b)`. -/
def seqMatchM (a b : List Char) : Nat :=
  matchTotal (a.length + b.length + 1) a b

/-- The float test `SequenceMatcher(...).ratio() >= 0.75` as the exact
rational comparison `2M/(|a|+|b|) >= 3/4`.  `0.75` is exactly
representable and the ratios of the short keyword strings involved are
never within a double ulp of it, so this equals the float comparison. -/
def ratioGE75 (a b : List Char) : Bool :=
  3 * (a.length + b.length) ≤ 8 * seqMatchM a b

/-- Source `_fuzzy_match(word, keyword_list, threshold=0.75)`. -/
def fuzzyMatch (word : String) (keywords : List String) : Bool :=
  let wl := lowerS word
  keywords.any fun kw => inS kw wl || inS wl kw || ratioGE75 wl.data kw.data

/-- Greeting phrase set (checked before everything else). -/
def greetingKeywords : List String :=
  ["hello", "hi", "hey", "good morning", "good afternoon", "good evening",
   "greetings", "howdy"]

/-- How-are-you style greeting phrases. -/
def howAreYouKeywords : List String :=
  ["how are you", "how r u", "how are u", "hows it going", "how is it going",
   "whats up", "what\x27s up", "sup"]

/-- Specific-class-preparation phrases (checked before lecturer). -/
def specificPrepKeywords : List String :=
  ["what to prepare for", "what should i prepare for", "how to prepare for",
   "prepare for", "get ready for", "before taking", "what do i need for",
   "prerequisites for", "ready for"]

/-- Program-duration phrases. -/
def durationKeywords : List String :=
  ["how long", "duration", "how many years", "length", "year", "years",
   "program duration", "bachelor duration", "master duration", "how much time",
   "time to complete", "how many", "long is", "take to complete", "time required"]

/-- Attendance-consequence phrases. -/
def attendanceConsequenceKeywords : List String :=
  ["what if", "what happen", "skip class", "miss class", "dont attend",
   "don\x27t attend", "absent", "too many absence", "skip mandatory",
   "miss mandatory", "late to class", "miss too many", "fail because"]

/-- The attendance-domain words gating the previous set. -/
def attendanceGateWords : List String :=
  ["class", "mandatory", "attendance", "absent", "skip", "miss", "late"]

/-- Student-issue phrases. -/
def issuesKeywords : List String :=
  ["have issue", "have problem", "need help", "having trouble", "struggling",
   "cant attend", "can\x27t attend", "emergency", "conflict", "sick", "medical"]

/-- Lecturer/faculty phrases (direct and fuzzy). -/
def lecturerKeywords : List String :=
  ["lecturer", "lecturers", "professor", "instructor", "instructors", "teacher",
   "teachers", "prof", "faculty", "tutor", "who teaches", "who teach"]

/-- Course-type / policy explanation phrases. -/
def explanationKeywords : List String :=
  ["mandatory", "audit", "secondary", "course type", "what is mandatory",
   "what is audit", "explain"]

/-- Words suppressing the course-type-explanation rule. -/
def explanationSuppressWords : List String :=
  ["skip", "miss", "dont", "don\x27t", "happen", "what if"]

/-- General preparation / study-tips phrases. -/
def prepKeywords : List String :=
  ["before class", "preparation", "study tips", "prepare well", "how to study"]

/-- Course/class/learn indicator words. -/
def courseIndicators : List String :=
  ["course", "class", "learn", "study", "teach", "training", "program"]

/-- Fixed topic vocabulary for general-topic queries. -/
def topicKeywords : List String :=
  ["machine learning", "ml", "artificial intelligence", "ai", "data science",
   "computer science", "cybersecurity", "cyber", "security", "web development",
   "web", "database", "db", "deep learning", "neural network", "programming",
   "software", "data", "python", "java", "javascript", "software development",
   "web dev", "mobile", "app development", "frontend", "backend", "fullstack",
   "business", "design", "ux", "ui", "marketing", "entrepreneurship", "analytics"]

/-- Single-word topic vocabulary of the terse-query override. -/
def singleWordTopics : List String :=
  ["ml", "ai", "software", "business", "design", "marketing", "data", "web",
   "mobile", "python", "java", "javascript", "security", "cyber", "database",
   "programming"]

/-- Two-word topic vocabulary of the terse-query override. -/
def twoWordTopics : List String :=
  ["computer science", "data science", "machine learning", "web development",
   "software development", "deep learning", "artificial intelligence",
   "cyber security", "app development", "digital marketing"]

/-- Vocabulary that diverts a course/topic query away from
general-topic-info (schedule/career/module words take priority). -/
def generalInfoSuppressWords : List String :=
  ["schedule", "career", "module", "time", "timing", "morning", "afternoon",
   "evening"]

/-- Schedule vocabulary. -/
def scheduleKeywords : List String :=
  ["time", "timing", "schedule", "when", "morning", "afternoon", "evening"]

/-- Career vocabulary. -/
def careerGuidanceKeywords : List String :=
  ["career", "job", "future", "work", "industry", "professional"]

/-- Module-planning vocabulary. -/
def moduleKeywords : List String :=
  ["module", "semester", "this module", "next module", "planning"]

/-- Program-query patterns. -/
def programQueryPatterns : List String :=
  ["what is in", "whats in", "courses in", "what courses", "show me",
   "tell me about", "information about", "about the", "in the",
   "major", "program", "degree", "what can i study", "what will i learn"]

/-- The fixed list of program names. -/
def programNames : List String :=
  ["computer science", "data science", "cyber security", "cybersecurity",
   "front-end development", "frontend", "interaction design", "design",
   "digital marketing", "marketing", "high-tech entrepreneurship",
   "entrepreneurship", "business", "digital transformation",
   "product management", "fintech", "applied data and computer science"]

/-- Greeting rule: exact match, or prefix followed by a space or comma. -/
def greetingHit (ql : String) : Bool :=
  greetingKeywords.any fun kw => kw = ql || startsS ql (kw ++ " ") || startsS ql (kw ++ ",")

/-- How-are-you rule. -/
def howAreYouHit (ql : String) : Bool :=
  howAreYouKeywords.any fun kw => inS kw ql

/-- Specific-class-preparation rule. -/
def specificPrepHit (ql : String) : Bool :=
  specificPrepKeywords.any fun kw => inS kw ql

/-- Program-duration rule. -/
def durationHit (ql : String) : Bool :=
  durationKeywords.any fun kw => inS kw ql

/-- Attendance-consequences rule (phrase hit gated by a domain word). -/
def attendanceHit (ql : String) : Bool :=
  (attendanceConsequenceKeywords.any fun kw => inS kw ql) &&
    (attendanceGateWords.any fun w => inS w ql)

/-- Student-issues rule. -/
def issuesHit (ql : String) : Bool :=
  issuesKeywords.any fun kw => inS kw ql

/-- Direct lecturer rule. -/
def lecturerDirectHit (ql : String) : Bool :=
  lecturerKeywords.any fun kw => inS kw ql

/-- Fuzzy lecturer rule over the query's words. -/
def lecturerFuzzyHit (ql : String) : Bool :=
  (wordsOf ql).any fun w => fuzzyMatch w lecturerKeywords

/-- Course-type-explanation rule (suppressed by attendance-failure
wording). -/
def explanationHit (ql : String) : Bool :=
  (explanationKeywords.any fun kw => inS kw ql) &&
    !(explanationSuppressWords.any fun w => inS w ql)

/-- General-preparation rule. -/
def prepHit (ql : String) : Bool :=
  prepKeywords.any fun kw => inS kw ql

/-- Terse-query topic override: at most 3 words and a single- or
two-word topic vocabulary hit. -/
def shortTopicHit (ql : String) : Bool :=
  (wordsOf ql).length ≤ 3 &&
    ((singleWordTopics.any fun t => inS t ql) || (twoWordTopics.any fun t => inS t ql))

/-- Course-indicator / topic rule, suppressed by schedule/career/module
vocabulary. -/
def generalTopicHit (ql : String) : Bool :=
  ((courseIndicators.any fun w => inS w ql) || (topicKeywords.any fun t => inS t ql)) &&
    !(generalInfoSuppressWords.any fun w => inS w ql)

/-- Schedule rule. -/
def scheduleHit (ql : String) : Bool :=
  scheduleKeywords.any fun kw => inS kw ql

/-- Career rule. -/
def careerHit (ql : String) : Bool :=
  careerGuidanceKeywords.any fun kw => inS kw ql

/-- Module-planning rule. -/
def moduleHit (ql : String) : Bool :=
  moduleKeywords.any fun kw => inS kw ql

/-- Program-info rule: a program name and a program-query pattern. -/
def programInfoHit (ql : String) : Bool :=
  (programNames.any fun p => inS p ql) && (programQueryPatterns.any fun p => inS p ql)

/-- Source `_analyze_query_intent(query)` (`classify_intent`): the
ordered, short-circuiting rule cascade.  `None`/empty input maps to the
default course-recommendation intent; greeting rules run on the
lower-cased, stripped text, everything later on the expanded buffer. -/
def analyzeQueryIntent : Option String → String
  | none => "course_recommendation"
  | some q =>
    if q = "" then "course_recommendation"
    else
      let ql0 := normalizeQL q
      if greetingHit ql0 then "greeting"
      else if howAreYouHit ql0 then "greeting"
      else
        let ql := applyExpansions ql0
        if specificPrepHit ql then "specific_class_preparation"
        else if durationHit ql then "program_duration"
        else if attendanceHit ql then "attendance_consequences"
        else if issuesHit ql then "student_issues"
        else if lecturerDirectHit ql then "lecturer_info"
        else if lecturerFuzzyHit ql then "lecturer_info"
        else if explanationHit ql then "course_type_explanation"
        else if prepHit ql then "preparation_advice"
        else if shortTopicHit ql then "general_info"
        else if generalTopicHit ql then "general_info"
        else if scheduleHit ql then "schedule_info"
        else if careerHit ql then "career_guidance"
        else if moduleHit ql then "module_planning"
        else if programInfoHit ql then "program_info"
        else "course_recommendation"

/-- The intent labels the classifier can produce. -/
def intentLabels : List String :=
  ["greeting", "specific_class_preparation", "program_duration",
   "attendance_consequences", "student_issues", "lecturer_info",
   "course_type_explanation", "preparation_advice", "general_info",
   "schedule_info", "career_guidance", "module_planning", "program_info",
   "course_recommendation"]

/-- Both branches of an `if` lie in a list, hence so does its value. -/
lemma mem_ite_of {α : Type} {l : List α} {c : Prop} [Decidable c] {a b : α}
    (ha : a ∈ l) (hb : b ∈ l) : (if c then a else b) ∈ l := by
  split <;> assumption

/-- The classifier cascade always lands in the label list. -/
lemma classifier_total_aux : ∀ q : Option String,
    analyzeQueryIntent q ∈ intentLabels := by
  intro q
  match q with
  | none => decide
  | some s =>
    by_cases hs : s = ""
    · subst hs; decide
    · simp only [analyzeQueryIntent, if_neg hs]
      exact mem_ite_of (by decide) (mem_ite_of (by decide) (mem_ite_of (by decide)
        (mem_ite_of (by decide) (mem_ite_of (by decide) (mem_ite_of (by decide)
        (mem_ite_of (by decide) (mem_ite_of (by decide) (mem_ite_of (by decide)
        (mem_ite_of (by decide) (mem_ite_of (by decide) (mem_ite_of (by decide)
        (mem_ite_of (by decide) (mem_ite_of (by decide) (mem_ite_of (by decide)
        (mem_ite_of (by decide) (by decide))))))))))))))))

/-- C2: the intent classifier is total — for every input (including
`None` and the empty string) it returns one of the intent labels
without any failure path, and `None`/empty input maps to the default
course-recommendation intent. -/
theorem c2_classifier_total :
    (∀ q : Option String, analyzeQueryIntent q ∈ intentLabels) ∧
    analyzeQueryIntent none = "course_recommendation" ∧
    analyzeQueryIntent (some "") = "course_recommendation" :=
  ⟨fun q => classifier_total_aux q, rfl, rfl⟩

/-- C3, counterexample to the claim as stated: `"ml professor"` expands
to `"machine learning professor"`, which has 3 words and contains the
two-word topic `"machine learning"` (and the single-word topic `"ml"`
pre-expansion), yet the classifier returns `lecturer_info`, because the
lecturer rule is checked before the terse-topic override — the override
is not unconditional over "any other cue". -/
theorem c3_counterexample :
    shortTopicHit (expandedOf "ml professor") = true ∧
    analyzeQueryIntent (some "ml professor") = "lecturer_info" ∧
    ("lecturer_info" : String) ≠ "general_info" :=
  ⟨by decide, by decide, by decide⟩

/-- C3 (amended): the terse-topic override yields `general_info` for
every non-empty query whose expanded text has at most 3 words and hits
the single- or two-word topic vocabulary, provided no higher-priority
cascade rule (greeting, specific-class-preparation, duration,
attendance, issues, lecturer direct or fuzzy, course-type explanation,
general preparation) fires — it does override all later cues
(schedule, career, module, program vocabulary need not be absent). -/
theorem c3_short_topic_override (q : String) (hq : ¬q = "")
    (h1 : greetingHit (normalizeQL q) = false)
    (h2 : howAreYouHit (normalizeQL q) = false)
    (h3 : specificPrepHit (expandedOf q) = false)
    (h4 : durationHit (expandedOf q) = false)
    (h5 : attendanceHit (expandedOf q) = false)
    (h6 : issuesHit (expandedOf q) = false)
    (h7 : lecturerDirectHit (expandedOf q) = false)
    (h8 : lecturerFuzzyHit (expandedOf q) = false)
    (h9 : explanationHit (expandedOf q) = false)
    (h10 : prepHit (expandedOf q) = false)
    (h11 : shortTopicHit (expandedOf q) = true) :
    analyzeQueryIntent (some q) = "general_info" := by
  simp only [expandedOf] at h3 h4 h5 h6 h7 h8 h9 h10 h11
  simp only [analyzeQueryIntent, if_neg hq]
  simp only [h1, h2, h3, h4, h5, h6, h7, h8, h9, h10, h11,
    Bool.false_eq_true, if_false, if_true, if_neg, ite_false, ite_true]

set_option maxRecDepth 4000 in
/-- Witness for C3's amended theorem: the query `"ml"` (expanding to
`"machine learning"`) classifies as `general_info`. -/
theorem c3_short_topic_override_witness :
    shortTopicHit (expandedOf "ml") = true ∧
    analyzeQueryIntent (some "ml") = "general_info" :=
  ⟨by decide,
   c3_short_topic_override "ml" (by decide) (by decide) (by decide) (by decide)
     (by decide) (by decide) (by decide) (by decide) (by decide) (by decide)
     (by decide) (by decide)⟩

/-!
## Relevance scorer (`_score_courses`, `_get_career_keywords`,
lines 236-312)
-/

/-- The fixed career → keyword-set table. -/
def careerMap : List (String × List String) :=
  [("software engineer",
    ["programming", "software", "development", "code", "algorithms", "web",
     "api", "backend", "frontend"]),
   ("data scientist",
    ["data", "analytics", "machine learning", "statistics", "python", "ai",
     "deep learning", "visualization"]),
   ("cybersecurity analyst",
    ["security", "network", "encryption", "hacking", "cyber", "forensics",
     "threat"]),
   ("product manager",
    ["product", "management", "strategy", "business", "agile", "leadership"]),
   ("ux designer",
    ["design", "user", "interface", "experience", "visual", "ui",
     "prototyping", "research"]),
   ("data engineer",
    ["data", "pipeline", "etl", "database", "big data", "spark", "hadoop"]),
   ("web developer",
    ["web", "html", "css", "javascript", "react", "node", "frontend"]),
   ("business analyst",
    ["business", "analytics", "strategy", "analysis", "intelligence"])]

/-- First table entry whose key occurs in the goal, else the default
keyword set. -/
def careerLookup : List (String × List String) → String → List String
  | [], _ => ["technology", "programming", "development"]
  | (k, v) :: rest, goal => if inS k goal then v else careerLookup rest goal

/-- Source `_get_career_keywords(career_goal)`. -/
def getCareerKeywords (careerGoal : String) : List String :=
  careerLookup careerMap (lowerS careerGoal)

/-- Factors 1-5 of `_score_courses` for one course: major/category
substring (+10), program-name substring (+5), +3 per career keyword
found in skills or description (when a career goal is set), experience
/difficulty alignment (+4 / +4 / flat +2 for Advanced), and query
matching (+8 exact substring, +2 per query word of length > 3 found).
(`estimated_difficulty` defaults to `'Intermediate'` and
`skills_covered_str`, `course_description`, `program_name` to `''`
when the column is absent, per the `.get` defaults.) -/
def scoreSansType (course : Course) (major careerGoal experienceLevel program : String)
    (query : Option String) : Nat :=
  (if inS (lowerS major) (lowerS course.category) then 10 else 0) +
  (if inS (lowerS program) (lowerS course.programName) then 5 else 0) +
  (if careerGoal ≠ "" then
    3 * ((getCareerKeywords careerGoal).countP fun kw =>
      inS kw (lowerS course.skillsCoveredStr) || inS kw (lowerS course.courseDescription))
   else 0) +
  (if experienceLevel = "Beginner" ∧ course.estimatedDifficulty = "Beginner" then 4
   else if experienceLevel = "Intermediate" ∧
       (course.estimatedDifficulty = "Beginner" ∨ course.estimatedDifficulty = "Intermediate")
     then 4
   else if experienceLevel = "Advanced" then 2
   else 0) +
  (match query with
   | none => 0
   | some q =>
     if q = "" then 0
     else
       let ctext := lowerS (course.courseName ++ " " ++ course.courseDescription ++ " " ++
         course.skillsCoveredStr)
       (if inS (lowerS q) ctext then 8 else 0) +
         2 * ((wordsOf (lowerS q)).countP fun w => w.length > 3 && inS w ctext))

/-- Factor 6 of `_score_courses`: course-type priority (`course_type`
defaults to `'secondary'` when absent; any other value falls in the
`else` branch, as in the source's `if/elif/else`). -/
def typeBonus (t : String) : Nat :=
  if t = "mandatory" then 7 else if t = "secondary" then 4 else 2

/-- The total relevance score of one course, the sum a single pass of
the scoring loop accumulates. -/
def scoreCourse (course : Course) (major careerGoal experienceLevel program : String)
    (query : Option String) : Nat :=
  scoreSansType course major careerGoal experienceLevel program query +
    typeBonus course.courseType

/-- Source `_score_courses(courses, ...)`: attach each course's score,
then sort descending by score.  The sort is pandas
`sort_values('relevance_score', ascending=False)` with its default
`kind='quicksort'` (numpy introsort) — third-party code whose tie order
is not specified by this repository — so the sorting pass is a
parameter here. -/
def scoreCourses (sortDesc : List (Course × Nat) → List (Course × Nat))
    (courses : List Course) (major careerGoal experienceLevel program : String)
    (query : Option String) : List (Course × Nat) :=
  sortDesc (courses.map fun c =>
    (c, scoreCourse c major careerGoal experienceLevel program query))

/-- A course record with its `course_type` replaced (all other fields
identical). -/
def setCourseType (c : Course) (t : String) : Course :=
  { c with courseType := t }

/-- C4: course-type score monotonicity — for any otherwise-identical
course records and any fixed profile, query and career goal, the
relevance score decomposes as a common base plus exactly +7 / +4 / +2
for mandatory / secondary / audit, hence
`score(mandatory) > score(secondary) > score(audit)`. -/
theorem c4_course_type_monotone (c : Course)
    (major careerGoal experienceLevel program : String) (q : Option String) :
    ∃ base : Nat,
      scoreCourse (setCourseType c "mandatory") major careerGoal experienceLevel program q
          = base + 7 ∧
      scoreCourse (setCourseType c "secondary") major careerGoal experienceLevel program q
          = base + 4 ∧
      scoreCourse (setCourseType c "audit") major careerGoal experienceLevel program q
          = base + 2 ∧
      scoreCourse (setCourseType c "secondary") major careerGoal experienceLevel program q
          < scoreCourse (setCourseType c "mandatory") major careerGoal experienceLevel program q ∧
      scoreCourse (setCourseType c "audit") major careerGoal experienceLevel program q
          < scoreCourse (setCourseType c "secondary") major careerGoal experienceLevel program q := by
  refine ⟨scoreSansType c major careerGoal experienceLevel program q, ?_, ?_, ?_, ?_, ?_⟩ <;>
    simp [scoreCourse, typeBonus, setCourseType, scoreSansType]

/-- C5 supporting fact: the scorer assigns equal scores to equal course
records — on a corpus of 17 identical rows every relevance score ties,
so the returned order is decided entirely by the library sort
(`sort_values` default quicksort), not by the scorer. -/
theorem c5_tied_scores : ∀ (c : Course)
    (major careerGoal experienceLevel program : String) (q : Option String),
    (List.replicate 17 c).map
        (fun x => scoreCourse x major careerGoal experienceLevel program q) =
      List.replicate 17 (scoreCourse c major careerGoal experienceLevel program q) := by
  intro c major careerGoal experienceLevel program q
  simp

/-!
## Schedule synthesizer (`generate_smart_schedule`, `_create_module`,
lines 1885-2193)

The pandas `sample(frac=1, random_state=seed)` shuffle (numpy Mersenne
Twister, third-party) is a parameter `shuffle : Nat → List Course →
List Course`; the Python per-process string hash is a parameter
`hashMajor`.  Both are fixed for a session, which is what the spec's
determinism claim quantifies over.  `datetime.now()` is the `now`
parameter (days as `Int`; `timedelta(weeks = w)` adds `7 * w`).  The
`iloc` accesses of the Module-2 block are out of bounds when the
secondary pool has exactly 5 or 6 courses (`IndexError`), so the
synthesizer returns `Option` and yields `none` there.
-/

/-- A transient per-session student profile (the dict fields the core
reads; a missing key is modelled by the default of its `.get` site). -/
structure StudentProfile where
  major : String
  program : String
  careerGoal : String
  experienceLevel : String
deriving Repr, DecidableEq

/-- A course dict inside a module, with its assigned time slot. -/
structure ScheduledCourse where
  course : Course
  timeSlot : String
  slotNumber : Nat
deriving Repr, DecidableEq

/-- The fixed `CLASS_TIMES` table: `(slot, time, start_hour)`. -/
def classTimes : List (Nat × String × Nat) :=
  [(1, "9:00 AM - 12:20 PM", 9), (2, "1:00 PM - 4:20 PM", 13),
   (3, "5:00 PM - 8:20 PM", 17)]

/-- A synthesized module (named to avoid Mathlib's `Module` class). -/
structure SchedModule where
  moduleName : String
  moduleNumber : Nat
  courses : List ScheduledCourse
  startDate : Int
  endDate : Int
  totalCredits : Nat
  description : String
deriving Repr, DecidableEq

/-- Round-robin slot assignment of `_create_module`:
course `idx` gets `CLASS_TIMES[idx % 3]`. -/
def assignTimes (courses : List Course) : List ScheduledCourse :=
  courses.enum.map fun p =>
    let ct := classTimes.getD (p.1 % 3) (0, "", 0)
    ⟨p.2, ct.2.1, ct.1⟩

/-- Source `_create_module(name, courses, start_date, description,
module_number)`; the end date is exactly 3 weeks later and
`total_credits` sums the courses' credits. -/
def createModule (name : String) (courses : List Course) (startDate : Int)
    (description : String) (moduleNumber : Nat) : SchedModule :=
  { moduleName := name, moduleNumber := moduleNumber,
    courses := assignTimes courses, startDate := startDate,
    endDate := startDate + 21,
    totalCredits := ((assignTimes courses).map fun sc => sc.course.credits).sum,
    description := description }

/-- Level string derived from the profile's program. -/
def scheduleLevel (program : String) : String :=
  if inS "bachelor" (lowerS program) then "bachelor" else "master"

/-- Filter the corpus to the level, falling back to the whole corpus
when the filter is empty (the `Level` column is part of our schema). -/
def levelCoursesOf (coursesDf : List Course) (level : String) : List Course :=
  let l0 := coursesDf.filter fun c => lowerS c.level = level
  if l0 = [] then coursesDf else l0

/-- Capstone/seminar keywords excluded from early modules. -/
def capstoneKeywords : List String :=
  ["capstone", "seminar", "thesis", "final project", "graduation project"]

/-- Drop courses whose (lowered) name contains a capstone keyword (the
`str.contains` with an alternation pattern of the keywords). -/
def earlyCoursesOf (levelCourses : List Course) : List Course :=
  levelCourses.filter fun c => !(capstoneKeywords.any fun k => inS k (lowerS c.courseName))

/-- Primary pool before the fallback: category contains the major
(case-insensitive). -/
def majorPoolRaw (ec : List Course) (major : String) : List Course :=
  ec.filter fun c => inS (lowerS major) (lowerS c.category)

/-- Complementary pool: category does not contain the major. -/
def otherPoolOf (ec : List Course) (major : String) : List Course :=
  ec.filter fun c => !(inS (lowerS major) (lowerS c.category))

/-- The `if major_courses.empty: major_courses = early_module_courses`
fallback. -/
def withFallback (raw ec : List Course) : List Course :=
  if raw = [] then ec else raw

/-- Exclude completed-course ids (skipped when the list is falsy). -/
def removeCompleted (l : List Course) (completed : List String) : List Course :=
  if completed ≠ [] then l.filter fun c => !(completed.contains c.courseId) else l

/-- Label the complementary pool `secondary` and convert its last 30%
(by position) to `audit`.  `int(total_other * 0.3)` equals
`3 * totalOther / 10` in `Nat` division: `0.3` as a double is below
`3/10` by `0.2 * 2^-54`, and the product's rounding error is always
smaller than the distance to the next integer, so the float truncation
agrees with the exact floor for every list length in (far beyond)
reach. -/
def auditConvert (other : List Course) : List Course :=
  if other ≠ [] then
    let totalOther := other.length
    let secondaried := other.map fun c => setCourseType c "secondary"
    let auditCount := 3 * totalOther / 10
    if auditCount > 0 then
      secondaried.take (totalOther - auditCount) ++
        (secondaried.drop (totalOther - auditCount)).map fun c => setCourseType c "audit"
    else secondaried
  else other

/-- The dead redistribution branch (`if mandatory.empty and
secondary.empty and audit.empty`), transcribed for fidelity: relabel
the (shuffled) primary pool 20% mandatory (clamped to 3-4), 50%
secondary, rest audit.  `int(total*0.20)` and `int(total*0.50)` are
`total / 5` and `total / 2` exactly (`0.2` as a double is above `1/5`
and `0.5` exact; the rounding never crosses an integer). -/
def redistribute (majorTyped : List Course) : List Course × List Course × List Course :=
  let total := majorTyped.length
  let relabeled := majorTyped.map fun c => setCourseType c "secondary"
  if total > 0 then
    let mandatoryCount := max 3 (min 4 (total / 5))
    let secondaryCount := total / 2
    let relabeled2 :=
      (relabeled.take mandatoryCount).map (fun c => setCourseType c "mandatory") ++
      ((relabeled.drop mandatoryCount).take secondaryCount) ++
      (if total > mandatoryCount + secondaryCount then
        (relabeled.drop (mandatoryCount + secondaryCount)).map fun c =>
          setCourseType c "audit"
      else relabeled.drop (mandatoryCount + secondaryCount))
    (relabeled2.filter fun c => c.courseType = "mandatory",
     relabeled2.filter fun c => c.courseType = "secondary",
     relabeled2.filter fun c => c.courseType = "audit")
  else
    (relabeled.filter fun c => c.courseType = "mandatory",
     relabeled.filter fun c => c.courseType = "secondary",
     relabeled.filter fun c => c.courseType = "audit")

/-- Module 1 courses: at most 1 mandatory + the `if/elif` secondary
chain (indices 0-3) + at most 1 audit. -/
def m1CoursesOf (mandatory secondary audit : List Course) : List Course :=
  (if mandatory.length ≥ 1 then mandatory.take 1 else []) ++
  (if secondary.length ≥ 4 then secondary.take 4
   else if secondary.length ≥ 3 then secondary.take 3
   else if secondary.length ≥ 2 then secondary.take 2
   else if secondary.length = 1 then secondary.take 1
   else []) ++
  (if audit ≠ [] then audit.take 1 else [])

/-- Module 2 courses, or `none` for the reachable `IndexError`s: the
`elif len(secondary) >= 6` branch reads `iloc[6]` (out of bounds when
the length is exactly 6) and the `elif len(secondary) >= 5` branch
reads `iloc[5]` (its length is then exactly 5, always out of bounds);
the trailing `elif len(secondary) == 5` branch is unreachable. -/
def m2CoursesOf (mandatory secondary audit : List Course) : Option (List Course) :=
  let m2mand := if mandatory.length ≥ 2 then (mandatory.drop 1).take 1 else []
  let m2aud := if audit.length > 1 then (audit.drop 1).take 1 else []
  if secondary.length ≥ 8 then some (m2mand ++ (secondary.drop 4).take 4 ++ m2aud)
  else if secondary.length ≥ 6 then
    (if secondary.length ≥ 7 then some (m2mand ++ (secondary.drop 4).take 3 ++ m2aud)
     else none)
  else if secondary.length ≥ 5 then none
  else if secondary.length = 5 then some (m2mand ++ (secondary.drop 4).take 1 ++ m2aud)
  else some (m2mand ++ m2aud)

/-- Module 3 courses (bounds-checked in the source). -/
def m3CoursesOf (mandatory secondary audit : List Course) : List Course :=
  (if mandatory.length ≥ 3 then (mandatory.drop 2).take 1 else []) ++
  (if secondary.length ≥ 12 then (secondary.drop 8).take 4
   else if secondary.length ≥ 11 then (secondary.drop 8).take 3
   else if secondary.length ≥ 10 then (secondary.drop 8).take 2
   else if secondary.length ≥ 9 then (secondary.drop 8).take 1
   else []) ++
  (if audit.length > 2 then (audit.drop 2).take 1 else [])

/-- Module 4 courses. -/
def m4CoursesOf (mandatory secondary audit : List Course) : List Course :=
  (if mandatory.length ≥ 4 then (mandatory.drop 3).take 1 else []) ++
  (if secondary.length ≥ 15 then (secondary.drop 12).take 3
   else if secondary.length ≥ 14 then (secondary.drop 12).take 2
   else if secondary.length ≥ 13 then (secondary.drop 12).take 1
   else []) ++
  (if audit.length > 3 then (audit.drop 3).take 1 else [])

/-- Module 5 courses. -/
def m5CoursesOf (secondary audit : List Course) : List Course :=
  (if secondary.length ≥ 18 then (secondary.drop 15).take 3
   else if secondary.length ≥ 17 then (secondary.drop 15).take 2
   else if secondary.length ≥ 16 then (secondary.drop 15).take 1
   else []) ++
  (if audit.length > 4 then (audit.drop 4).take 1 else [])

/-- Module 6 courses. -/
def m6CoursesOf (secondary audit : List Course) : List Course :=
  (if secondary.length ≥ 21 then (secondary.drop 18).take 3
   else if secondary.length ≥ 20 then (secondary.drop 18).take 2
   else if secondary.length ≥ 19 then (secondary.drop 18).take 1
   else []) ++
  (if audit.length > 5 then (audit.drop 5).take 1 else [])

/-- Module 7 courses. -/
def m7CoursesOf (secondary : List Course) : List Course :=
  if secondary.length ≥ 24 then (secondary.drop 21).take 3
  else if secondary.length ≥ 23 then (secondary.drop 21).take 2
  else if secondary.length ≥ 22 then (secondary.drop 21).take 1
  else []

/-- The module-assembly tail of `generate_smart_schedule`: modules 1-7
built front-to-back from the typed pools, each stamped with its start
date (3-week offsets, with the Year-2/Year-3 jumps at 52/104 weeks) and
appended only when non-empty, truncated to `limit_modules`.  A module
is appended exactly when its course list is non-empty (when the
surrounding `if` of the source is false the list is empty anyway). -/
def buildModules (allCourses mandatory secondary audit : List Course)
    (now : Int) (major : String) (limitModules : Nat) : Option (List SchedModule) :=
  let mods1 :=
    if allCourses ≠ [] then
      (let m1 := m1CoursesOf mandatory secondary audit
       if m1 ≠ [] then
        [createModule "Module 1" m1 now ("Foundation courses for " ++ major) 1]
       else [])
    else []
  match (if mandatory.length > 1 ∨ secondary.length > 4 then
          m2CoursesOf mandatory secondary audit
         else some []) with
  | none => none
  | some m2raw =>
    let mods2 :=
      if m2raw ≠ [] then
        [createModule "Module 2" m2raw (now + 21) ("Core " ++ major ++ " development") 2]
      else []
    let mods3 :=
      if mandatory.length > 2 ∨ secondary.length > 8 then
        (let m3 := m3CoursesOf mandatory secondary audit
         if m3 ≠ [] then
          [createModule "Module 3" m3 (now + 42)
            (major ++ " specialization and exploration") 3]
         else [])
      else []
    let mods4 :=
      if mandatory.length > 3 ∨ secondary.length > 12 then
        (let m4 := m4CoursesOf mandatory secondary audit
         if m4 ≠ [] then
          [createModule "Module 4 (Year 2)" m4 (now + 364)
            ("Year 2: Advanced " ++ major ++ " concepts") 4]
         else [])
      else []
    let mods5 :=
      if secondary.length > 15 then
        (let m5 := m5CoursesOf secondary audit
         if m5 ≠ [] then
          [createModule "Module 5 (Year 2)" m5 (now + 385)
            ("Year 2: " ++ major ++ " specialization") 5]
         else [])
      else []
    let mods6 :=
      if secondary.length > 18 then
        (let m6 := m6CoursesOf secondary audit
         if m6 ≠ [] then
          [createModule "Module 6 (Year 2)" m6 (now + 406)
            "Year 2: Capstone preparation" 6]
         else [])
      else []
    let mods7 :=
      if secondary.length > 21 then
        (let m7 := m7CoursesOf secondary
         if m7 ≠ [] then
          [createModule "Module 7 (Year 3)" m7 (now + 728)
            "Year 3: Advanced specialization" 7]
         else [])
      else []
    some ((mods1 ++ mods2 ++ mods3 ++ mods4 ++ mods5 ++ mods6 ++ mods7).take limitModules)

set_option linter.unusedVariables false in
/-- Source `generate_smart_schedule(student_profile, enrolled_courses,
completed_courses, limit_modules)`.  `enrolled_courses` is accepted and
(deliberately) never read; completed ids are excluded from both pools;
the pools are shuffled with seeds `hash(major) % 100` and
`hash(major) % 100 + 1`; `none` models the reachable `IndexError` of
the Module-2 block. -/
def generateSmartSchedule (shuffle : Nat → List Course → List Course)
    (hashMajor : String → Nat) (now : Int) (profile : StudentProfile)
    (enrolledCourses completedCourses : List String) (limitModules : Nat)
    (coursesDf : List Course) : Option (List SchedModule) :=
  let major := profile.major
  let level := scheduleLevel profile.program
  if coursesDf = [] then some []
  else
    let earlyModuleCourses := earlyCoursesOf (levelCoursesOf coursesDf level)
    let majorCourses1 := removeCompleted
      (withFallback (majorPoolRaw earlyModuleCourses major) earlyModuleCourses)
      completedCourses
    let otherCourses1 := removeCompleted (otherPoolOf earlyModuleCourses major)
      completedCourses
    let seed := hashMajor major % 100
    let majorTyped := (shuffle seed majorCourses1).map fun c => setCourseType c "mandatory"
    let otherTyped := auditConvert (shuffle (seed + 1) otherCourses1)
    let allCourses := majorTyped.take 10 ++ otherTyped.take 10
    let mandatory0 := (allCourses.filter fun c => c.courseType = "mandatory").take 10
    let secondary0 := (allCourses.filter fun c => c.courseType = "secondary").take 10
    let audit0 := (allCourses.filter fun c => c.courseType = "audit").take 6
    let pools :=
      if mandatory0 = [] ∧ secondary0 = [] ∧ audit0 = [] then redistribute majorTyped
      else (mandatory0, secondary0, audit0)
    let mandatory := pools.1
    let secondary := pools.2.1
    let audit := pools.2.2
    buildModules allCourses mandatory secondary audit now major limitModules

/-- Everything observable about a module except its date stamps: name,
number, ordered course list (with time slots), total credits,
description. -/
def moduleContent (m : SchedModule) : String × Nat × List ScheduledCourse × Nat × String :=
  (m.moduleName, m.moduleNumber, m.courses, m.totalCredits, m.description)

lemma map_mc_ite (c : Prop) [Decidable c] (a b : List SchedModule) :
    (if c then a else b).map moduleContent =
      if c then a.map moduleContent else b.map moduleContent := by
  split <;> rfl

lemma mc_createModule (n : String) (cs : List Course) (d : Int) (desc : String) (k : Nat) :
    moduleContent (createModule n cs d desc k) =
      (n, k, assignTimes cs, ((assignTimes cs).map fun sc => sc.course.credits).sum, desc) :=
  rfl

/-- C6: schedule determinism — within a session (fixed `shuffle`
permutation function and fixed string hash, as the seed is
`hash(major) % 100`, not wall-clock or global random state), two calls
to `generate_smart_schedule` at different wall-clock times produce
modules with identical names, numbers, course composition and ordering;
only the date stamps depend on the clock. -/
lemma buildModules_content_eq (allCourses mandatory secondary audit : List Course)
    (major : String) (lim : Nat) (t₁ t₂ : Int) :
    Option.map (List.map moduleContent)
        (buildModules allCourses mandatory secondary audit t₁ major lim) =
      Option.map (List.map moduleContent)
        (buildModules allCourses mandatory secondary audit t₂ major lim) := by
  simp only [buildModules]
  split
  · rfl
  · simp [List.map_take, List.map_append, map_mc_ite, mc_createModule]

theorem c6_schedule_deterministic (shuffle : Nat → List Course → List Course)
    (hashMajor : String → Nat) (profile : StudentProfile)
    (enrolled completed : List String) (limit : Nat)
    (coursesDf : List Course) (t₁ t₂ : Int) :
    Option.map (List.map moduleContent)
        (generateSmartSchedule shuffle hashMajor t₁ profile enrolled completed limit coursesDf) =
      Option.map (List.map moduleContent)
        (generateSmartSchedule shuffle hashMajor t₂ profile enrolled completed limit coursesDf) := by
  simp only [generateSmartSchedule]
  by_cases h0 : coursesDf = []
  · simp [h0]
  · simp only [if_neg h0]
    apply buildModules_content_eq

/-- The identity shuffle: a permutation-preserving instantiation of the
pandas `sample(frac=1)` parameter. -/
def shuffleId : Nat → List Course → List Course := fun _ l => l

/-- A concrete session hash function. -/
def hashZero : String → Nat := fun _ => 0

/-- A concrete student profile. -/
def profileCS : StudentProfile :=
  ⟨"Computer Science", "Bachelor\x27s Degree", "", "Beginner"⟩

/-- A bachelor-level course in a category not matching the major. -/
def courseMathX : Course :=
  ⟨"m1", "Linear Algebra", "", "Mathematics", "", "", "", "", "", "Bachelor", 4⟩

/-- A second bachelor-level course in another non-matching category. -/
def coursePhysY : Course :=
  ⟨"p1", "Mechanics", "", "Physics", "", "", "", "", "", "Bachelor", 4⟩

/-- Does any course id occur in two different modules of the list? -/
def modulesShareCourse : List (List String) → Bool
  | [] => false
  | ids :: rest => (ids.any fun i => rest.any fun ids2 => ids2.contains i) ||
      modulesShareCourse rest

/-- Ids of the courses of one module. -/
def idsOfMod (m : SchedModule) : List String :=
  m.courses.map fun sc => sc.course.courseId

/-- C7, counterexample to the claim as stated: when the student's major
matches no category, the fallback makes the primary pool the whole
corpus while the complementary pool still holds every course, so the
same course is labelled both mandatory and secondary; on a two-course
corpus the schedule then puts course `p1` in Module 1 (as secondary)
and again in Module 2 (as mandatory) — a course appears in more than
one module.  (This happens for every permutation-preserving shuffle;
the identity instantiation makes it decidable.) -/
theorem c7_counterexample :
    Option.map (fun mods => modulesShareCourse (mods.map idsOfMod))
        (generateSmartSchedule shuffleId hashZero 0 profileCS [] [] 4
          [courseMathX, coursePhysY]) = some true := by
  decide

/-!
### Pool and slice lemmas for the schedule invariants
-/

/-- Ids of a course list. -/
def idsOf (l : List Course) : List String :=
  l.map fun c => c.courseId

lemma setCourseType_courseId (c : Course) (t : String) :
    (setCourseType c t).courseId = c.courseId := rfl

lemma idsOf_map_setType (l : List Course) (t : String) :
    idsOf (l.map fun c => setCourseType c t) = idsOf l := by
  simp [idsOf, List.map_map, Function.comp, setCourseType]

lemma idsOf_auditConvert (l : List Course) : idsOf (auditConvert l) = idsOf l := by
  by_cases h : l = []
  · simp [h, auditConvert]
  · simp only [auditConvert, if_pos h]
    split
    · rw [show ∀ a b : List Course, idsOf (a ++ b) = idsOf a ++ idsOf b by
        intro a b; simp [idsOf]]
      rw [idsOf_map_setType]
      have : idsOf ((l.map fun c => setCourseType c "secondary").take
            (l.length - 3 * l.length / 10)) ++
          idsOf ((l.map fun c => setCourseType c "secondary").drop
            (l.length - 3 * l.length / 10)) = idsOf l := by
        rw [show ∀ (k : Nat) (m : List Course), idsOf (m.take k) ++ idsOf (m.drop k) = idsOf m
          by intro k m; simp [idsOf, ← List.map_append]]
        exact idsOf_map_setType l "secondary"
      exact this
    · exact idsOf_map_setType l "secondary"

lemma subset_take_of_le {α : Type} {l : List α} {k n : Nat} (h : k ≤ n) :
    l.take k ⊆ l.take n := by
  intro x hx
  have : l.take k = (l.take n).take k := by rw [List.take_take, Nat.min_eq_left h]
  rw [this] at hx
  exact List.take_subset _ _ hx

lemma slice_disjoint {α : Type} {L : List α} (hL : L.Nodup) {a n b m : Nat}
    (h : a + n ≤ b) : List.Disjoint ((L.drop a).take n) ((L.drop b).take m) := by
  intro x hx1 hx2
  have h1 : x ∈ L.take (a + n) := by
    have e : List.drop a (List.take (a + n) L) = List.take n (List.drop a L) := by
      rw [List.drop_take]
      congr 1
      omega
    rw [← e] at hx1
    exact List.drop_subset _ _ hx1
  have h2 : x ∈ L.drop b := List.take_subset _ _ hx2
  exact List.disjoint_take_drop hL h h1 h2

lemma idsOf_append (a b : List Course) : idsOf (a ++ b) = idsOf a ++ idsOf b := by
  simp [idsOf]

lemma idsOf_take (k : Nat) (l : List Course) : idsOf (l.take k) = (idsOf l).take k := by
  simp [idsOf, List.map_take]

lemma idsOf_drop (k : Nat) (l : List Course) : idsOf (l.drop k) = (idsOf l).drop k := by
  simp [idsOf, List.map_drop]

lemma mem_ite_singleton {α : Type} {c : Prop} [Decidable c] {x m : α}
    (h : m ∈ (if c then [x] else [])) : m = x := by
  split at h
  · simpa using h
  · simp at h

lemma idsOfMod_createModule (n : String) (cs : List Course) (d : Int) (desc : String)
    (k : Nat) : idsOfMod (createModule n cs d desc k) = idsOf cs := by
  simp only [idsOfMod, createModule, assignTimes, List.map_map, idsOf]
  rw [show ((fun sc : ScheduledCourse => sc.course.courseId) ∘ fun p : Nat × Course =>
      ({ course := p.2, timeSlot := (classTimes.getD (p.1 % 3) (0, "", 0)).2.1,
         slotNumber := (classTimes.getD (p.1 % 3) (0, "", 0)).1 } : ScheduledCourse)) =
    (fun c : Course => c.courseId) ∘ Prod.snd from rfl]
  rw [← List.map_map, List.enum_map_snd]

lemma course_mem_assignTimes {sc : ScheduledCourse} {cs : List Course}
    (h : sc ∈ assignTimes cs) : sc.course ∈ cs := by
  simp only [assignTimes, List.mem_map] at h
  obtain ⟨p, hp, hsc⟩ := h
  have : p.2 ∈ cs := by
    rw [← List.enum_map_snd cs]
    exact List.mem_map_of_mem _ hp
  rw [← hsc]
  exact this

lemma m1Courses_subset (M S A : List Course) :
    m1CoursesOf M S A ⊆ M.take 1 ++ S.take 4 ++ A.take 1 := by
  unfold m1CoursesOf
  refine List.append_subset.2 ⟨List.append_subset.2 ⟨?_, ?_⟩, ?_⟩
  · intro x hx
    split at hx
    · exact List.mem_append.2 (Or.inl (List.mem_append.2 (Or.inl hx)))
    · simp at hx
  · intro x hx
    have hx4 : x ∈ S.take 4 := by
      split at hx
      · exact hx
      all_goals split at hx
      · exact subset_take_of_le (by omega) hx
      all_goals split at hx
      · exact subset_take_of_le (by omega) hx
      all_goals split at hx
      · exact subset_take_of_le (by omega) hx
      · simp at hx
    exact List.mem_append.2 (Or.inl (List.mem_append.2 (Or.inr hx4)))
  · intro x hx
    split at hx
    · exact List.mem_append.2 (Or.inr hx)
    · simp at hx

lemma ite_nil_sub {c : Prop} [Decidable c] {X : List Course} :
    (if c then X else []) ⊆ X := by
  split
  · exact fun x hx => hx
  · exact List.nil_subset _

lemma sub3 {x1 s1 a1 X Y Z : List Course} (h1 : x1 ⊆ X) (h2 : s1 ⊆ Y) (h3 : a1 ⊆ Z) :
    x1 ++ s1 ++ a1 ⊆ X ++ Y ++ Z := by
  refine List.append_subset.2 ⟨List.append_subset.2 ⟨?_, ?_⟩, ?_⟩ <;> intro x hx
  · exact List.mem_append.2 (Or.inl (List.mem_append.2 (Or.inl (h1 hx))))
  · exact List.mem_append.2 (Or.inl (List.mem_append.2 (Or.inr (h2 hx))))
  · exact List.mem_append.2 (Or.inr (h3 hx))

lemma chain4_sub {S' : List Course} {c1 c2 c3 c4 : Prop}
    [Decidable c1] [Decidable c2] [Decidable c3] [Decidable c4] :
    (if c1 then S'.take 4 else if c2 then S'.take 3 else if c3 then S'.take 2
     else if c4 then S'.take 1 else []) ⊆ S'.take 4 := by
  split_ifs <;>
    first
      | exact fun x hx => hx
      | exact subset_take_of_le (by omega)
      | exact List.nil_subset _

lemma chain3_sub {S' : List Course} {c1 c2 c3 : Prop}
    [Decidable c1] [Decidable c2] [Decidable c3] :
    (if c1 then S'.take 3 else if c2 then S'.take 2 else if c3 then S'.take 1 else []) ⊆
      S'.take 3 := by
  split_ifs <;>
    first
      | exact fun x hx => hx
      | exact subset_take_of_le (by omega)
      | exact List.nil_subset _

lemma m3Courses_subset (M S A : List Course) :
    m3CoursesOf M S A ⊆ (M.drop 2).take 1 ++ (S.drop 8).take 4 ++ (A.drop 2).take 1 := by
  unfold m3CoursesOf
  exact sub3 ite_nil_sub chain4_sub ite_nil_sub

lemma m4Courses_subset (M S A : List Course) :
    m4CoursesOf M S A ⊆ (M.drop 3).take 1 ++ (S.drop 12).take 3 ++ (A.drop 3).take 1 := by
  unfold m4CoursesOf
  exact sub3 ite_nil_sub chain3_sub ite_nil_sub

lemma m2Courses_subset {M S A l : List Course} (h : m2CoursesOf M S A = some l) :
    l ⊆ (M.drop 1).take 1 ++ (S.drop 4).take 4 ++ (A.drop 1).take 1 := by
  unfold m2CoursesOf at h
  split_ifs at h <;> cases h <;>
    (intro x hx
     simp only [List.mem_append, List.not_mem_nil, or_false, false_or] at hx ⊢
     all_goals
       (have mono3 : x ∈ List.take 3 (List.drop 4 S) → x ∈ List.take 4 (List.drop 4 S) :=
         fun hh => subset_take_of_le (by omega) hh
        have mono1 : x ∈ List.take 1 (List.drop 4 S) → x ∈ List.take 4 (List.drop 4 S) :=
         fun hh => subset_take_of_le (by omega) hh
        tauto))

lemma ite_slice_sub {c : Prop} [Decidable c] (l : List Course) (a k : Nat) :
    (if c then (l.drop a).take k else []) ⊆ l := by
  split
  · exact fun x hx => List.drop_subset _ _ (List.take_subset _ _ hx)
  · exact List.nil_subset _

lemma ite_slice_len {c : Prop} [Decidable c] (l : List Course) (a k : Nat) :
    (if c then (l.drop a).take k else []).length ≤ k := by
  split
  · simp only [List.length_take]
    omega
  · simp

lemma chain4_sub_pool (S' : List Course) {a : Nat} {c1 c2 c3 c4 : Prop}
    [Decidable c1] [Decidable c2] [Decidable c3] [Decidable c4] :
    (if c1 then (S'.drop a).take 4 else if c2 then (S'.drop a).take 3
     else if c3 then (S'.drop a).take 2 else if c4 then (S'.drop a).take 1 else []) ⊆
      S' := by
  split_ifs <;>
    first
      | exact fun x hx => List.drop_subset _ _ (List.take_subset _ _ hx)
      | exact List.nil_subset _

lemma chain4_len {S' : List Course} {a : Nat} {c1 c2 c3 c4 : Prop}
    [Decidable c1] [Decidable c2] [Decidable c3] [Decidable c4] :
    (if c1 then (S'.drop a).take 4 else if c2 then (S'.drop a).take 3
     else if c3 then (S'.drop a).take 2 else if c4 then (S'.drop a).take 1 else []).length ≤
      4 := by
  split_ifs <;> simp only [List.length_take, List.length_nil] <;> omega

lemma chain3_sub_pool (S' : List Course) {a : Nat} {c1 c2 c3 : Prop}
    [Decidable c1] [Decidable c2] [Decidable c3] :
    (if c1 then (S'.drop a).take 3 else if c2 then (S'.drop a).take 2
     else if c3 then (S'.drop a).take 1 else []) ⊆ S' := by
  split_ifs <;>
    first
      | exact fun x hx => List.drop_subset _ _ (List.take_subset _ _ hx)
      | exact List.nil_subset _

lemma chain3_len {S' : List Course} {a : Nat} {c1 c2 c3 : Prop}
    [Decidable c1] [Decidable c2] [Decidable c3] :
    (if c1 then (S'.drop a).take 3 else if c2 then (S'.drop a).take 2
     else if c3 then (S'.drop a).take 1 else []).length ≤ 4 := by
  split_ifs <;> simp only [List.length_take, List.length_nil] <;> omega

/-- Shape of a synthesized module's course list: at most one course
from the mandatory pool, then at most four from the secondary pool,
then at most one from the audit pool. -/
def ModShape (L M S A : List Course) : Prop :=
  ∃ x y z, L = x ++ y ++ z ∧ x ⊆ M ∧ y ⊆ S ∧ z ⊆ A ∧
    x.length ≤ 1 ∧ y.length ≤ 4 ∧ z.length ≤ 1

lemma m1_shape (M S A : List Course) : ModShape (m1CoursesOf M S A) M S A := by
  refine ⟨_, _, _, rfl, ?_, ?_, ?_, ?_, ?_, ?_⟩
  · exact ite_slice_sub M 0 1
  · exact chain4_sub_pool (a := 0) S
  · exact ite_slice_sub A 0 1
  · exact ite_slice_len M 0 1
  · exact chain4_len (a := 0)
  · exact ite_slice_len A 0 1

lemma m3_shape (M S A : List Course) : ModShape (m3CoursesOf M S A) M S A := by
  refine ⟨_, _, _, rfl, ?_, ?_, ?_, ?_, ?_, ?_⟩
  · exact ite_slice_sub M 2 1
  · exact chain4_sub_pool (a := 8) S
  · exact ite_slice_sub A 2 1
  · exact ite_slice_len M 2 1
  · exact chain4_len (a := 8)
  · exact ite_slice_len A 2 1

lemma m4_shape (M S A : List Course) : ModShape (m4CoursesOf M S A) M S A := by
  refine ⟨_, _, _, rfl, ?_, ?_, ?_, ?_, ?_, ?_⟩
  · exact ite_slice_sub M 3 1
  · exact chain3_sub_pool (a := 12) S
  · exact ite_slice_sub A 3 1
  · exact ite_slice_len M 3 1
  · exact chain3_len (a := 12)
  · exact ite_slice_len A 3 1

lemma modShape_two {M S A : List Course} (x z : List Course) (hx : x ⊆ M) (hz : z ⊆ A)
    (hxl : x.length ≤ 1) (hzl : z.length ≤ 1) : ModShape (x ++ z) M S A :=
  ⟨x, [], z, by simp, hx, List.nil_subset _, hz, hxl, by simp, hzl⟩

lemma m2_shape {M S A l : List Course} (h : m2CoursesOf M S A = some l) :
    ModShape l M S A := by
  unfold m2CoursesOf at h
  split_ifs at h <;> cases h <;>
    first
      | (refine ⟨_, _, _, rfl, ?_, ?_, ?_, ?_, ?_, ?_⟩ <;>
          first
            | exact fun x hx => List.drop_subset _ _ (List.take_subset _ _ hx)
            | exact fun x hx => List.tail_subset _ (List.take_subset _ _ hx)
            | exact List.nil_subset _
            | (simp only [List.length_take, List.length_nil, List.length_tail]; omega))
      | (apply modShape_two <;>
          first
            | exact fun x hx => List.drop_subset _ _ (List.take_subset _ _ hx)
            | exact fun x hx => List.tail_subset _ (List.take_subset _ _ hx)
            | exact List.nil_subset _
            | (simp only [List.length_take, List.length_nil, List.length_tail]; omega))

lemma counts_of_shape {M S A L : List Course}
    (hMt : ∀ x ∈ M, x.courseType = "mandatory")
    (hSt : ∀ x ∈ S, x.courseType = "secondary")
    (hAt : ∀ x ∈ A, x.courseType = "audit")
    (h : ModShape L M S A) :
    L.countP (fun c => c.courseType = "mandatory") ≤ 1 ∧
    L.countP (fun c => c.courseType = "secondary") ≤ 4 ∧
    L.countP (fun c => c.courseType = "audit") ≤ 1 := by
  obtain ⟨x, y, z, rfl, hxM, hyS, hzA, hxl, hyl, hzl⟩ := h
  simp only [List.countP_append]
  have cm : ∀ (w : List Course) (t t' : String), t ≠ t' → (∀ a ∈ w, a.courseType = t) →
      w.countP (fun c => c.courseType = t') = 0 := by
    intro w t t' ht hw
    apply List.countP_eq_zero.2
    intro a ha
    simp [hw a ha, ht]
  have c1 := List.countP_le_length (l := x) (p := fun c => decide (c.courseType = "mandatory"))
  have c2 := List.countP_le_length (l := y) (p := fun c => decide (c.courseType = "secondary"))
  have c3 := List.countP_le_length (l := z) (p := fun c => decide (c.courseType = "audit"))
  refine ⟨?_, ?_, ?_⟩
  · rw [cm y "secondary" "mandatory" (by decide) (fun a ha => hSt a (hyS ha)),
      cm z "audit" "mandatory" (by decide) (fun a ha => hAt a (hzA ha))]
    omega
  · rw [cm x "mandatory" "secondary" (by decide) (fun a ha => hMt a (hxM ha)),
      cm z "audit" "secondary" (by decide) (fun a ha => hAt a (hzA ha))]
    omega
  · rw [cm x "mandatory" "audit" (by decide) (fun a ha => hMt a (hxM ha)),
      cm y "secondary" "audit" (by decide) (fun a ha => hSt a (hyS ha))]
    omega

lemma idsOf_subset {l₁ l₂ : List Course} (h : l₁ ⊆ l₂) : idsOf l₁ ⊆ idsOf l₂ := by
  intro i hi
  obtain ⟨c, hc, rfl⟩ := List.mem_map.1 hi
  exact List.mem_map_of_mem _ (h hc)

lemma block_disjoint {MI SI AI : List String}
    (hM : MI.Nodup) (hS : SI.Nodup) (hA : AI.Nodup)
    (hMS : MI.Disjoint SI) (hMA : MI.Disjoint AI) (hSA : SI.Disjoint AI)
    {a₁ n₁ b₁ m₁ c₁ k₁ a₂ n₂ b₂ m₂ c₂ k₂ : Nat}
    (ha : a₁ + n₁ ≤ a₂) (hb : b₁ + m₁ ≤ b₂) (hc : c₁ + k₁ ≤ c₂) :
    List.Disjoint
      ((MI.drop a₁).take n₁ ++ (SI.drop b₁).take m₁ ++ (AI.drop c₁).take k₁)
      ((MI.drop a₂).take n₂ ++ (SI.drop b₂).take m₂ ++ (AI.drop c₂).take k₂) := by
  intro i h1 h2
  have sub : ∀ (L : List String) (a n : Nat), (L.drop a).take n ⊆ L :=
    fun L a n x hx => List.drop_subset _ _ (List.take_subset _ _ hx)
  rcases List.mem_append.1 h1 with h1' | h1a
  · rcases List.mem_append.1 h1' with h1m | h1s
    · rcases List.mem_append.1 h2 with h2' | h2a
      · rcases List.mem_append.1 h2' with h2m | h2s
        · exact slice_disjoint hM ha h1m h2m
        · exact hMS (sub _ _ _ h1m) (sub _ _ _ h2s)
      · exact hMA (sub _ _ _ h1m) (sub _ _ _ h2a)
    · rcases List.mem_append.1 h2 with h2' | h2a
      · rcases List.mem_append.1 h2' with h2m | h2s
        · exact hMS (sub _ _ _ h2m) (sub _ _ _ h1s)
        · exact slice_disjoint hS hb h1s h2s
      · exact hSA (sub _ _ _ h1s) (sub _ _ _ h2a)
  · rcases List.mem_append.1 h2 with h2' | h2a
    · rcases List.mem_append.1 h2' with h2m | h2s
      · exact hMA (sub _ _ _ h2m) (sub _ _ _ h1a)
      · exact hSA (sub _ _ _ h2s) (sub _ _ _ h1a)
    · exact slice_disjoint hA hc h1a h2a

lemma mem_ite_ite_singleton {α : Type} {c c' : Prop} [Decidable c] [Decidable c']
    {x m : α} (h : m ∈ (if c then (if c' then [x] else []) else [])) : m = x := by
  split at h
  · exact mem_ite_singleton h
  · simp at h

lemma countP_assignTimes (cs : List Course) (p : Course → Bool) :
    (assignTimes cs).countP (fun sc => p sc.course) = cs.countP p := by
  simp only [assignTimes, List.countP_map]
  rw [show ((fun sc : ScheduledCourse => p sc.course) ∘ fun pr : Nat × Course =>
      ({ course := pr.2, timeSlot := (classTimes.getD (pr.1 % 3) (0, "", 0)).2.1,
         slotNumber := (classTimes.getD (pr.1 % 3) (0, "", 0)).1 } : ScheduledCourse)) =
    (p ∘ Prod.snd) from rfl]
  rw [← List.countP_map, List.enum_map_snd]

/-- Specialisation of countP_assignTimes to course-type predicates. -/
lemma countP_assignTimes_type (cs : List Course) (t : String) :
    ((assignTimes cs).countP fun sc => sc.course.courseType = t) =
    cs.countP (fun c => c.courseType = t) :=
  countP_assignTimes cs (fun c => c.courseType = t)

lemma modShape_nil {M S A : List Course} : ModShape [] M S A :=
  ⟨[], [], [], by simp, List.nil_subset _, List.nil_subset _, List.nil_subset _,
    by simp, by simp, by simp⟩

lemma buildModules_invariants
    {allCourses M S A : List Course} {now : Int} {major : String} {lim : Nat}
    {completed : List String} {mods : List SchedModule}
    (hMt : ∀ x ∈ M, x.courseType = "mandatory")
    (hSt : ∀ x ∈ S, x.courseType = "secondary")
    (hAt : ∀ x ∈ A, x.courseType = "audit")
    (hMnd : (idsOf M).Nodup) (hSnd : (idsOf S).Nodup) (hAnd : (idsOf A).Nodup)
    (hMS : (idsOf M).Disjoint (idsOf S)) (hMA : (idsOf M).Disjoint (idsOf A))
    (hSA : (idsOf S).Disjoint (idsOf A))
    (hS10 : S.length ≤ 10)
    (hMc : ∀ i ∈ idsOf M, i ∉ completed) (hSc : ∀ i ∈ idsOf S, i ∉ completed)
    (hAc : ∀ i ∈ idsOf A, i ∉ completed)
    (hb : buildModules allCourses M S A now major lim = some mods) :
    List.Pairwise (fun m₁ m₂ => (idsOfMod m₁).Disjoint (idsOfMod m₂)) mods ∧
    (∀ m ∈ mods,
      (m.courses.countP fun sc => sc.course.courseType = "mandatory") ≤ 1 ∧
      (m.courses.countP fun sc => sc.course.courseType = "secondary") ≤ 4 ∧
      (m.courses.countP fun sc => sc.course.courseType = "audit") ≤ 1) ∧
    (∀ m ∈ mods, ∀ i ∈ idsOfMod m, i ∉ completed) := by
  unfold buildModules at hb
  revert hb
  cases hscr : (if M.length > 1 ∨ S.length > 4 then m2CoursesOf M S A else some []) with
  | none => intro hb; simp at hb
  | some m2raw =>
    intro hb
    injection hb with hb
    -- modules 5-7 never exist (secondary pool capped at 10)
    have h15 : ¬(S.length > 15) := by omega
    have h18 : ¬(S.length > 18) := by omega
    have h21 : ¬(S.length > 21) := by omega
    rw [if_neg h15, if_neg h18, if_neg h21] at hb
    -- shape of module 2's course list
    have hm2shape : ModShape m2raw M S A := by
      by_cases hc : (M.length > 1 ∨ S.length > 4)
      · rw [if_pos hc] at hscr
        exact m2_shape hscr
      · rw [if_neg hc] at hscr
        cases hscr
        exact modShape_nil
    have bsub2 : idsOf m2raw ⊆
        (((idsOf M).drop 1).take 1 ++ ((idsOf S).drop 4).take 4 ++
          ((idsOf A).drop 1).take 1) := by
      by_cases hc : (M.length > 1 ∨ S.length > 4)
      · rw [if_pos hc] at hscr
        intro i hi
        have := idsOf_subset (m2Courses_subset hscr) hi
        rwa [idsOf_append, idsOf_append, idsOf_take, idsOf_drop, idsOf_take, idsOf_drop,
          idsOf_take, idsOf_drop] at this
      · rw [if_neg hc] at hscr
        cases hscr
        simp [idsOf]
    have bsub1 : idsOf (m1CoursesOf M S A) ⊆
        (((idsOf M).drop 0).take 1 ++ ((idsOf S).drop 0).take 4 ++
          ((idsOf A).drop 0).take 1) := by
      intro i hi
      have := idsOf_subset (m1Courses_subset M S A) hi
      rwa [idsOf_append, idsOf_append, idsOf_take, idsOf_take, idsOf_take] at this
    have bsub3 : idsOf (m3CoursesOf M S A) ⊆
        (((idsOf M).drop 2).take 1 ++ ((idsOf S).drop 8).take 4 ++
          ((idsOf A).drop 2).take 1) := by
      intro i hi
      have := idsOf_subset (m3Courses_subset M S A) hi
      rwa [idsOf_append, idsOf_append, idsOf_take, idsOf_drop, idsOf_take, idsOf_drop,
        idsOf_take, idsOf_drop] at this
    have bsub4 : idsOf (m4CoursesOf M S A) ⊆
        (((idsOf M).drop 3).take 1 ++ ((idsOf S).drop 12).take 3 ++
          ((idsOf A).drop 3).take 1) := by
      intro i hi
      have := idsOf_subset (m4Courses_subset M S A) hi
      rwa [idsOf_append, idsOf_append, idsOf_take, idsOf_drop, idsOf_take, idsOf_drop,
        idsOf_take, idsOf_drop] at this
    -- pairwise disjointness of the four (conditional) modules
    have d12 : (idsOf (m1CoursesOf M S A)).Disjoint (idsOf m2raw) := fun i h1 h2 =>
      block_disjoint hMnd hSnd hAnd hMS hMA hSA (by omega) (by omega) (by omega)
        (bsub1 h1) (bsub2 h2)
    have d13 : (idsOf (m1CoursesOf M S A)).Disjoint (idsOf (m3CoursesOf M S A)) :=
      fun i h1 h2 =>
      block_disjoint hMnd hSnd hAnd hMS hMA hSA (by omega) (by omega) (by omega)
        (bsub1 h1) (bsub3 h2)
    have d14 : (idsOf (m1CoursesOf M S A)).Disjoint (idsOf (m4CoursesOf M S A)) :=
      fun i h1 h2 =>
      block_disjoint hMnd hSnd hAnd hMS hMA hSA (by omega) (by omega) (by omega)
        (bsub1 h1) (bsub4 h2)
    have d23 : (idsOf m2raw).Disjoint (idsOf (m3CoursesOf M S A)) := fun i h1 h2 =>
      block_disjoint hMnd hSnd hAnd hMS hMA hSA (by omega) (by omega) (by omega)
        (bsub2 h1) (bsub3 h2)
    have d24 : (idsOf m2raw).Disjoint (idsOf (m4CoursesOf M S A)) := fun i h1 h2 =>
      block_disjoint hMnd hSnd hAnd hMS hMA hSA (by omega) (by omega) (by omega)
        (bsub2 h1) (bsub4 h2)
    have d34 : (idsOf (m3CoursesOf M S A)).Disjoint (idsOf (m4CoursesOf M S A)) :=
      fun i h1 h2 =>
      block_disjoint hMnd hSnd hAnd hMS hMA hSA (by omega) (by omega) (by omega)
        (bsub3 h1) (bsub4 h2)
    have hcourses : ∀ (n : String) (cs : List Course) (d : Int) (ds : String) (k : Nat),
        (createModule n cs d ds k).courses = assignTimes cs := fun _ _ _ _ _ => rfl
    subst hb
    rw [List.append_nil, List.append_nil, List.append_nil]
    refine ⟨?_, ?_, ?_⟩
    · -- pairwise module disjointness
      refine List.Pairwise.sublist (List.take_sublist _ _) ?_
      refine List.pairwise_append.2 ⟨List.pairwise_append.2
        ⟨List.pairwise_append.2 ⟨?_, ?_, ?_⟩, ?_, ?_⟩, ?_, ?_⟩
      · simp only [ne_eq]
        repeat split
        all_goals simp
      · simp only [ne_eq]
        repeat split
        all_goals simp
      · intro a ha b hb'
        have ha' := mem_ite_ite_singleton ha
        have hb2 := mem_ite_singleton hb'
        subst ha' hb2
        show (idsOfMod _).Disjoint (idsOfMod _)
        rw [idsOfMod_createModule, idsOfMod_createModule]
        exact d12
      · simp only [ne_eq]
        repeat split
        all_goals simp
      · intro a ha b hb'
        have hb2 := mem_ite_ite_singleton hb'
        subst hb2
        rcases List.mem_append.1 ha with h | h
        · have ha' := mem_ite_ite_singleton h
          subst ha'
          show (idsOfMod _).Disjoint (idsOfMod _)
          rw [idsOfMod_createModule, idsOfMod_createModule]
          exact d13
        · have ha' := mem_ite_singleton h
          subst ha'
          show (idsOfMod _).Disjoint (idsOfMod _)
          rw [idsOfMod_createModule, idsOfMod_createModule]
          exact d23
      · simp only [ne_eq]
        repeat split
        all_goals simp
      · intro a ha b hb'
        have hb2 := mem_ite_ite_singleton hb'
        subst hb2
        rcases List.mem_append.1 ha with h | h
        · rcases List.mem_append.1 h with h' | h'
          · have ha' := mem_ite_ite_singleton h'
            subst ha'
            show (idsOfMod _).Disjoint (idsOfMod _)
            rw [idsOfMod_createModule, idsOfMod_createModule]
            exact d14
          · have ha' := mem_ite_singleton h'
            subst ha'
            show (idsOfMod _).Disjoint (idsOfMod _)
            rw [idsOfMod_createModule, idsOfMod_createModule]
            exact d24
        · have ha' := mem_ite_ite_singleton h
          subst ha'
          show (idsOfMod _).Disjoint (idsOfMod _)
          rw [idsOfMod_createModule, idsOfMod_createModule]
          exact d34
    · -- per-module type counts
      intro m hm
      have hm2 := List.take_subset _ _ hm
      rcases List.mem_append.1 hm2 with h | h
      rotate_left
      · have hm' := mem_ite_ite_singleton h
        subst hm'
        refine ⟨?_, ?_, ?_⟩ <;> rw [hcourses, countP_assignTimes_type]
        · exact (counts_of_shape hMt hSt hAt (m4_shape M S A)).1
        · exact (counts_of_shape hMt hSt hAt (m4_shape M S A)).2.1
        · exact (counts_of_shape hMt hSt hAt (m4_shape M S A)).2.2
      rcases List.mem_append.1 h with h | h
      rotate_left
      · have hm' := mem_ite_ite_singleton h
        subst hm'
        refine ⟨?_, ?_, ?_⟩ <;> rw [hcourses, countP_assignTimes_type]
        · exact (counts_of_shape hMt hSt hAt (m3_shape M S A)).1
        · exact (counts_of_shape hMt hSt hAt (m3_shape M S A)).2.1
        · exact (counts_of_shape hMt hSt hAt (m3_shape M S A)).2.2
      rcases List.mem_append.1 h with h | h
      · have hm' := mem_ite_ite_singleton h
        subst hm'
        refine ⟨?_, ?_, ?_⟩ <;> rw [hcourses, countP_assignTimes_type]
        · exact (counts_of_shape hMt hSt hAt (m1_shape M S A)).1
        · exact (counts_of_shape hMt hSt hAt (m1_shape M S A)).2.1
        · exact (counts_of_shape hMt hSt hAt (m1_shape M S A)).2.2
      · have hm' := mem_ite_singleton h
        subst hm'
        refine ⟨?_, ?_, ?_⟩ <;> rw [hcourses, countP_assignTimes_type]
        · exact (counts_of_shape hMt hSt hAt hm2shape).1
        · exact (counts_of_shape hMt hSt hAt hm2shape).2.1
        · exact (counts_of_shape hMt hSt hAt hm2shape).2.2
    · -- no completed-course id in any module
      have poolM : ∀ {i : String} {a n : Nat}, i ∈ ((idsOf M).drop a).take n →
          i ∉ completed :=
        fun hi => hMc _ (List.drop_subset _ _ (List.take_subset _ _ hi))
      have poolS : ∀ {i : String} {a n : Nat}, i ∈ ((idsOf S).drop a).take n →
          i ∉ completed :=
        fun hi => hSc _ (List.drop_subset _ _ (List.take_subset _ _ hi))
      have poolA : ∀ {i : String} {a n : Nat}, i ∈ ((idsOf A).drop a).take n →
          i ∉ completed :=
        fun hi => hAc _ (List.drop_subset _ _ (List.take_subset _ _ hi))
      have finish : ∀ {i : String} {bl : List String},
          i ∈ bl →
          (bl ⊆ (((idsOf M).drop 0).take 1 ++ ((idsOf S).drop 0).take 4 ++
            ((idsOf A).drop 0).take 1) ∨
           bl ⊆ (((idsOf M).drop 1).take 1 ++ ((idsOf S).drop 4).take 4 ++
            ((idsOf A).drop 1).take 1) ∨
           bl ⊆ (((idsOf M).drop 2).take 1 ++ ((idsOf S).drop 8).take 4 ++
            ((idsOf A).drop 2).take 1) ∨
           bl ⊆ (((idsOf M).drop 3).take 1 ++ ((idsOf S).drop 12).take 3 ++
            ((idsOf A).drop 3).take 1)) → i ∉ completed := by
        intro i bl hi hsub
        rcases hsub with hsub | hsub | hsub | hsub <;>
          (rcases List.mem_append.1 (hsub hi) with h | h
           · rcases List.mem_append.1 h with h | h
             · exact poolM h
             · exact poolS h
           · exact poolA h)
      intro m hm
      have hm2 := List.take_subset _ _ hm
      rcases List.mem_append.1 hm2 with h | h
      rotate_left
      · have hm' := mem_ite_ite_singleton h
        subst hm'
        intro i hi
        rw [idsOfMod_createModule] at hi
        exact finish hi (Or.inr (Or.inr (Or.inr bsub4)))
      rcases List.mem_append.1 h with h | h
      rotate_left
      · have hm' := mem_ite_ite_singleton h
        subst hm'
        intro i hi
        rw [idsOfMod_createModule] at hi
        exact finish hi (Or.inr (Or.inr (Or.inl bsub3)))
      rcases List.mem_append.1 h with h | h
      · have hm' := mem_ite_ite_singleton h
        subst hm'
        intro i hi
        rw [idsOfMod_createModule] at hi
        exact finish hi (Or.inl bsub1)
      · have hm' := mem_ite_singleton h
        subst hm'
        intro i hi
        rw [idsOfMod_createModule] at hi
        exact finish hi (Or.inr (Or.inl bsub2))

/-!
### From the full pipeline to the pool hypotheses
-/

/-- The level filter never leaves the corpus. -/
lemma levelCoursesOf_sublist (df : List Course) (lvl : String) :
    (levelCoursesOf df lvl).Sublist df := by
  show (if df.filter (fun c => lowerS c.level = lvl) = [] then df
    else df.filter (fun c => lowerS c.level = lvl)).Sublist df
  split
  · exact List.Sublist.refl df
  · exact List.filter_sublist df

/-- Removing completed courses never leaves the pool. -/
lemma removeCompleted_sublist (l : List Course) (comp : List String) :
    (removeCompleted l comp).Sublist l := by
  unfold removeCompleted
  split
  · exact List.filter_sublist l
  · exact List.Sublist.refl l

lemma setCourseType_courseType (c : Course) (t : String) :
    (setCourseType c t).courseType = t := rfl

/-- A course surviving removeCompleted is not completed. -/
lemma mem_removeCompleted_not_completed {l : List Course} {comp : List String}
    {c : Course} (h : c ∈ removeCompleted l comp) : c.courseId ∉ comp := by
  by_cases hne : comp = []
  · subst hne
    exact List.not_mem_nil c.courseId
  · have h2 : c ∈ l.filter fun c => !(comp.contains c.courseId) := by
      unfold removeCompleted at h
      rwa [if_pos hne] at h
    have hb := (List.mem_filter.1 h2).2
    rw [Bool.not_eq_true'] at hb
    intro hmem
    have hc : comp.contains c.courseId = true := by
      show comp.elem c.courseId = true
      exact List.elem_iff.2 hmem
    rw [hb] at hc
    exact Bool.false_ne_true hc

lemma idsOf_sublist {l₁ l₂ : List Course} (h : l₁.Sublist l₂) :
    (idsOf l₁).Sublist (idsOf l₂) := List.Sublist.map _ h

lemma mem_idsOf {i : String} {l : List Course} :
    i ∈ idsOf l ↔ ∃ c ∈ l, c.courseId = i := by
  simp [idsOf]

/-- C7 (amended): with a session shuffle that permutes its input, a
corpus with pairwise-distinct course ids, and a major that matches at
least one category of the early pool (so the fallback aliasing the two
pools does not fire), every generated schedule satisfies the module
invariants: no course id appears in two modules, each module holds at
most 1 mandatory, 4 secondary and 1 audit course, no completed course
is scheduled, and the result does not depend on the enrolled-course
list. -/
theorem c7_module_invariants
    (shuffle : Nat → List Course → List Course) (hashMajor : String → Nat)
    (now : Int) (profile : StudentProfile) (enrolled completed : List String)
    (limit : Nat) (coursesDf : List Course) (mods : List SchedModule)
    (hs : ∀ seed l, List.Perm (shuffle seed l) l)
    (hn : (idsOf coursesDf).Nodup)
    (hm : majorPoolRaw (earlyCoursesOf (levelCoursesOf coursesDf
        (scheduleLevel profile.program))) profile.major ≠ [])
    (hr : generateSmartSchedule shuffle hashMajor now profile enrolled completed
        limit coursesDf = some mods) :
    List.Pairwise (fun m₁ m₂ => (idsOfMod m₁).Disjoint (idsOfMod m₂)) mods ∧
    (∀ m ∈ mods,
      (m.courses.countP fun sc => sc.course.courseType = "mandatory") ≤ 1 ∧
      (m.courses.countP fun sc => sc.course.courseType = "secondary") ≤ 4 ∧
      (m.courses.countP fun sc => sc.course.courseType = "audit") ≤ 1) ∧
    (∀ m ∈ mods, ∀ i ∈ idsOfMod m, i ∉ completed) ∧
    (∀ enrolled₂ : List String,
      generateSmartSchedule shuffle hashMajor now profile enrolled₂ completed
        limit coursesDf = some mods) := by
  have henr : ∀ e₂ : List String,
      generateSmartSchedule shuffle hashMajor now profile e₂ completed limit coursesDf =
      generateSmartSchedule shuffle hashMajor now profile enrolled completed limit
        coursesDf := fun _ => rfl
  suffices hinv :
      List.Pairwise (fun m₁ m₂ => (idsOfMod m₁).Disjoint (idsOfMod m₂)) mods ∧
      (∀ m ∈ mods,
        (m.courses.countP fun sc => sc.course.courseType = "mandatory") ≤ 1 ∧
        (m.courses.countP fun sc => sc.course.courseType = "secondary") ≤ 4 ∧
        (m.courses.countP fun sc => sc.course.courseType = "audit") ≤ 1) ∧
      (∀ m ∈ mods, ∀ i ∈ idsOfMod m, i ∉ completed) by
    exact ⟨hinv.1, hinv.2.1, hinv.2.2, fun e₂ => (henr e₂).trans hr⟩
  by_cases hdf : coursesDf = []
  · simp only [generateSmartSchedule] at hr
    rw [if_pos hdf] at hr
    injection hr with hr
    subst hr
    exact ⟨List.Pairwise.nil, fun m hm' => absurd hm' (List.not_mem_nil m),
      fun m hm' => absurd hm' (List.not_mem_nil m)⟩
  · simp only [generateSmartSchedule] at hr
    rw [if_neg hdf] at hr
    set EC := earlyCoursesOf (levelCoursesOf coursesDf (scheduleLevel profile.program))
      with hECd
    set RAW := majorPoolRaw EC profile.major with hRAWd
    set MC := removeCompleted (withFallback RAW EC) completed with hMCd
    set OC := removeCompleted (otherPoolOf EC profile.major) completed with hOCd
    set MT := (shuffle (hashMajor profile.major % 100) MC).map
      (fun c => setCourseType c "mandatory") with hMTd
    set OT := auditConvert (shuffle (hashMajor profile.major % 100 + 1) OC) with hOTd
    set AC := MT.take 10 ++ OT.take 10 with hACd
    set M0 := (AC.filter fun c => c.courseType = "mandatory").take 10 with hM0d
    set S0 := (AC.filter fun c => c.courseType = "secondary").take 10 with hS0d
    set A0 := (AC.filter fun c => c.courseType = "audit").take 6 with hA0d
    have hsubEC : EC.Sublist coursesDf := by
      rw [hECd]
      exact (List.filter_sublist _).trans (levelCoursesOf_sublist _ _)
    have hnEC : (idsOf EC).Nodup := List.Nodup.sublist (idsOf_sublist hsubEC) hn
    have hinjEC : ∀ c ∈ EC, ∀ d ∈ EC, c.courseId = d.courseId → c = d := by
      intro c hc d hd h
      exact List.inj_on_of_nodup_map
        (show ((EC.map fun c => c.courseId)).Nodup from hnEC) hc hd h
    have hWF : withFallback RAW EC = RAW := if_neg hm
    have hMCeq : MC = removeCompleted RAW completed := by rw [hMCd, hWF]
    have hsubMC : MC.Sublist RAW := by
      rw [hMCeq]
      exact removeCompleted_sublist RAW completed
    have hsubMCEC : MC.Sublist EC := hsubMC.trans (by
      rw [hRAWd]
      exact List.filter_sublist _)
    have hsubOC : OC.Sublist (otherPoolOf EC profile.major) := by
      rw [hOCd]
      exact removeCompleted_sublist _ _
    have hsubOCEC : OC.Sublist EC := hsubOC.trans (List.filter_sublist _)
    have hpermMT : List.Perm (idsOf MT) (idsOf MC) := by
      rw [hMTd, idsOf_map_setType]
      exact List.Perm.map _ (hs _ MC)
    have hpermOT : List.Perm (idsOf OT) (idsOf OC) := by
      rw [hOTd, idsOf_auditConvert]
      exact List.Perm.map _ (hs _ OC)
    have hdisjMO : ∀ i, i ∈ idsOf MC → i ∈ idsOf OC → False := by
      intro i h1 h2
      obtain ⟨c, hc, hci⟩ := mem_idsOf.1 h1
      obtain ⟨d, hd, hdi⟩ := mem_idsOf.1 h2
      have hcRAW : c ∈ RAW := hsubMC.subset hc
      have hdOP : d ∈ otherPoolOf EC profile.major := hsubOC.subset hd
      have hcF := List.mem_filter.1 (show c ∈ EC.filter
        (fun c => inS (lowerS profile.major) (lowerS c.category)) from by
          rw [hRAWd] at hcRAW
          exact hcRAW)
      have hdF := List.mem_filter.1 (show d ∈ EC.filter
        (fun c => !(inS (lowerS profile.major) (lowerS c.category))) from hdOP)
      have hcd : c = d := hinjEC c hcF.1 d hdF.1 (hci.trans hdi.symm)
      have hneg := hdF.2
      rw [Bool.not_eq_true', ← hcd] at hneg
      rw [hcF.2] at hneg
      exact absurd hneg (by decide)
    have hnMC : (idsOf MC).Nodup :=
      List.Nodup.sublist (idsOf_sublist (hsubMCEC.trans hsubEC)) hn
    have hnOC : (idsOf OC).Nodup :=
      List.Nodup.sublist (idsOf_sublist (hsubOCEC.trans hsubEC)) hn
    have hnMT : (idsOf MT).Nodup := (List.Perm.nodup_iff hpermMT).2 hnMC
    have hnOT : (idsOf OT).Nodup := (List.Perm.nodup_iff hpermOT).2 hnOC
    have hnAC : (idsOf AC).Nodup := by
      rw [hACd, idsOf_append, idsOf_take, idsOf_take]
      refine List.nodup_append.2 ⟨?_, ?_, ?_⟩
      · exact List.Nodup.sublist (List.take_sublist _ _) hnMT
      · exact List.Nodup.sublist (List.take_sublist _ _) hnOT
      · intro i h1 h2
        exact hdisjMO i (hpermMT.subset ((List.take_sublist _ _).subset h1))
          (hpermOT.subset ((List.take_sublist _ _).subset h2))
    have hcompAC : ∀ i ∈ idsOf AC, i ∉ completed := by
      intro i hi
      rw [hACd, idsOf_append, idsOf_take, idsOf_take] at hi
      rcases List.mem_append.1 hi with h | h
      · have h2 : i ∈ idsOf MC := hpermMT.subset ((List.take_sublist _ _).subset h)
        obtain ⟨c, hc, hci⟩ := mem_idsOf.1 h2
        rw [← hci]
        rw [hMCeq] at hc
        exact mem_removeCompleted_not_completed hc
      · have h2 : i ∈ idsOf OC := hpermOT.subset ((List.take_sublist _ _).subset h)
        obtain ⟨c, hc, hci⟩ := mem_idsOf.1 h2
        rw [← hci]
        rw [hOCd] at hc
        exact mem_removeCompleted_not_completed hc
    have hinjAC : ∀ c ∈ AC, ∀ d ∈ AC, c.courseId = d.courseId → c = d := by
      intro c hc d hd h
      exact List.inj_on_of_nodup_map
        (show ((AC.map fun c => c.courseId)).Nodup from hnAC) hc hd h
    have hMt : ∀ x ∈ M0, x.courseType = "mandatory" := by
      intro x hx
      rw [hM0d] at hx
      exact of_decide_eq_true (List.mem_filter.1 (List.take_subset _ _ hx)).2
    have hSt : ∀ x ∈ S0, x.courseType = "secondary" := by
      intro x hx
      rw [hS0d] at hx
      exact of_decide_eq_true (List.mem_filter.1 (List.take_subset _ _ hx)).2
    have hAt : ∀ x ∈ A0, x.courseType = "audit" := by
      intro x hx
      rw [hA0d] at hx
      exact of_decide_eq_true (List.mem_filter.1 (List.take_subset _ _ hx)).2
    have hsubM0 : (idsOf M0).Sublist (idsOf AC) := by
      rw [hM0d]
      exact idsOf_sublist ((List.take_sublist _ _).trans (List.filter_sublist _))
    have hsubS0 : (idsOf S0).Sublist (idsOf AC) := by
      rw [hS0d]
      exact idsOf_sublist ((List.take_sublist _ _).trans (List.filter_sublist _))
    have hsubA0 : (idsOf A0).Sublist (idsOf AC) := by
      rw [hA0d]
      exact idsOf_sublist ((List.take_sublist _ _).trans (List.filter_sublist _))
    have hmemM0 : ∀ c ∈ M0, c ∈ AC := by
      intro c hc
      rw [hM0d] at hc
      exact (List.filter_sublist _).subset (List.take_subset _ _ hc)
    have hmemS0 : ∀ c ∈ S0, c ∈ AC := by
      intro c hc
      rw [hS0d] at hc
      exact (List.filter_sublist _).subset (List.take_subset _ _ hc)
    have hmemA0 : ∀ c ∈ A0, c ∈ AC := by
      intro c hc
      rw [hA0d] at hc
      exact (List.filter_sublist _).subset (List.take_subset _ _ hc)
    have hnM0 : (idsOf M0).Nodup := List.Nodup.sublist hsubM0 hnAC
    have hnS0 : (idsOf S0).Nodup := List.Nodup.sublist hsubS0 hnAC
    have hnA0 : (idsOf A0).Nodup := List.Nodup.sublist hsubA0 hnAC
    have hdisjM0S0 : (idsOf M0).Disjoint (idsOf S0) := by
      intro i h1 h2
      obtain ⟨c, hc, hci⟩ := mem_idsOf.1 h1
      obtain ⟨d, hd, hdi⟩ := mem_idsOf.1 h2
      have hcT := hMt c hc
      have hdT := hSt d hd
      cases hinjAC c (hmemM0 c hc) d (hmemS0 d hd) (hci.trans hdi.symm)
      exact absurd (hcT.symm.trans hdT) (by decide)
    have hdisjM0A0 : (idsOf M0).Disjoint (idsOf A0) := by
      intro i h1 h2
      obtain ⟨c, hc, hci⟩ := mem_idsOf.1 h1
      obtain ⟨d, hd, hdi⟩ := mem_idsOf.1 h2
      have hcT := hMt c hc
      have hdT := hAt d hd
      cases hinjAC c (hmemM0 c hc) d (hmemA0 d hd) (hci.trans hdi.symm)
      exact absurd (hcT.symm.trans hdT) (by decide)
    have hdisjS0A0 : (idsOf S0).Disjoint (idsOf A0) := by
      intro i h1 h2
      obtain ⟨c, hc, hci⟩ := mem_idsOf.1 h1
      obtain ⟨d, hd, hdi⟩ := mem_idsOf.1 h2
      have hcT := hSt c hc
      have hdT := hAt d hd
      cases hinjAC c (hmemS0 c hc) d (hmemA0 d hd) (hci.trans hdi.symm)
      exact absurd (hcT.symm.trans hdT) (by decide)
    have hS10 : S0.length ≤ 10 := by
      rw [hS0d]
      exact List.length_take_le _ _
    have hMc0 : ∀ i ∈ idsOf M0, i ∉ completed := fun i hi => hcompAC i (hsubM0.subset hi)
    have hSc0 : ∀ i ∈ idsOf S0, i ∉ completed := fun i hi => hcompAC i (hsubS0.subset hi)
    have hAc0 : ∀ i ∈ idsOf A0, i ∉ completed := fun i hi => hcompAC i (hsubA0.subset hi)
    by_cases hemp : (M0 = [] ∧ S0 = [] ∧ A0 = [])
    · have hMTnil : MT = [] := by
        cases hMTc : MT with
        | nil => rfl
        | cons c rest =>
          exfalso
          have hcMT : c ∈ MT := by
            rw [hMTc]
            exact List.mem_cons_self c rest
          have hcAC : c ∈ AC := by
            rw [hACd]
            refine List.mem_append_left _ ?_
            rw [hMTc]
            exact List.mem_cons_self c _
          have hct : c.courseType = "mandatory" := by
            rw [hMTd] at hcMT
            obtain ⟨d, _, hdc⟩ := List.mem_map.1 hcMT
            rw [← hdc]
            rfl
          have hfil : c ∈ AC.filter (fun c => c.courseType = "mandatory") :=
            List.mem_filter.2 ⟨hcAC, decide_eq_true hct⟩
          have hne : M0 ≠ [] := by
            rw [hM0d]
            intro hEq
            rcases List.take_eq_nil_iff.1 hEq with h | h
            · exact absurd h (by decide)
            · exact List.ne_nil_of_mem hfil h
          exact hne hemp.1
      rw [if_pos hemp, hMTnil] at hr
      have hred : redistribute ([] : List Course) = ([], [], []) := rfl
      rw [hred] at hr
      exact buildModules_invariants
        (fun x hx => absurd hx (List.not_mem_nil x))
        (fun x hx => absurd hx (List.not_mem_nil x))
        (fun x hx => absurd hx (List.not_mem_nil x))
        List.nodup_nil List.nodup_nil List.nodup_nil
        (fun i h1 _ => absurd h1 (List.not_mem_nil i))
        (fun i h1 _ => absurd h1 (List.not_mem_nil i))
        (fun i h1 _ => absurd h1 (List.not_mem_nil i))
        (by decide)
        (fun i hi => absurd hi (List.not_mem_nil i))
        (fun i hi => absurd hi (List.not_mem_nil i))
        (fun i hi => absurd hi (List.not_mem_nil i))
        hr
    · rw [if_neg hemp] at hr
      exact buildModules_invariants hMt hSt hAt hnM0 hnS0 hnA0
        hdisjM0S0 hdisjM0A0 hdisjS0A0 hS10 hMc0 hSc0 hAc0 hr

/-- A bachelor-level course whose category matches the major of
profileCS. -/
def courseCS1 : Course :=
  ⟨"c1", "Intro to Programming", "", "Computer Science", "", "", "", "", "",
    "Bachelor", 4⟩

/-- The schedule generated for the one-course corpus below. -/
def c7WitnessMods : List SchedModule :=
  [createModule "Module 1" [setCourseType courseCS1 "mandatory"] 0
    "Foundation courses for Computer Science" 1]

theorem c7_module_invariants_witness :
    generateSmartSchedule shuffleId hashZero 0 profileCS [] [] 4 [courseCS1] =
      some c7WitnessMods ∧
    (List.Pairwise (fun m₁ m₂ => (idsOfMod m₁).Disjoint (idsOfMod m₂)) c7WitnessMods ∧
     (∀ m ∈ c7WitnessMods,
       (m.courses.countP fun sc => sc.course.courseType = "mandatory") ≤ 1 ∧
       (m.courses.countP fun sc => sc.course.courseType = "secondary") ≤ 4 ∧
       (m.courses.countP fun sc => sc.course.courseType = "audit") ≤ 1) ∧
     (∀ m ∈ c7WitnessMods, ∀ i ∈ idsOfMod m, i ∉ ([] : List String)) ∧
     (∀ enrolled₂ : List String,
       generateSmartSchedule shuffleId hashZero 0 profileCS enrolled₂ [] 4
         [courseCS1] = some c7WitnessMods)) :=
  ⟨by decide,
   c7_module_invariants shuffleId hashZero 0 profileCS [] [] 4 [courseCS1]
     c7WitnessMods (fun _ l => List.Perm.refl l) (by decide) (by decide) (by decide)⟩

/-!
## Response handlers (`_handle_*`, `get_intelligent_recommendations`,
lines 147-234, 533-1883, 2195-2270)

A handler returns Python's `(courses_df_subset, explanations_dict,
response_string)`; the dict (insertion-ordered) is an association list.
`random.choice` over the 4-element opening/limitation/closing lists of
`_handle_unknown_query` is a `Fin 4` selection parameter per list.  The
lecturer table and the `course_lecturer_map` are parameters (loaded from
a CSV at startup).  The LLM branch of `get_intelligent_recommendations`
is outside the rule-based core the spec describes (`use_llm` false).
-/

set_option linter.unusedVariables false

/-- Python `str.upper` for ASCII letters. -/
def upperChar (c : Char) : Char :=
  if 'a' ≤ c ∧ c ≤ 'z' then Char.ofNat (c.toNat - 32) else c

/-- Python `str.title()`: uppercase each letter that follows a
non-letter, lowercase the rest. -/
def titleChars : List Char → Bool → List Char
  | [], _ => []
  | c :: rest, prevAlpha =>
      let isAlpha := ('a' ≤ c ∧ c ≤ 'z') ∨ ('A' ≤ c ∧ c ≤ 'Z')
      (if isAlpha then (if prevAlpha then lowerChar c else upperChar c) else c) ::
        titleChars rest (decide isAlpha)

def titleS (s : String) : String :=
  ⟨titleChars s.data false⟩

/-- Python `s[:n]`. -/
def takeS (n : Nat) (s : String) : String :=
  ⟨s.data.take n⟩

/-- Python `s.split(sep)` for a single-character separator. -/
def splitCommaAux : List Char → List Char → List String
  | [], acc => [⟨acc.reverse⟩]
  | c :: rest, acc =>
      if c = ',' then ⟨acc.reverse⟩ :: splitCommaAux rest []
      else splitCommaAux rest (c :: acc)

def splitCommaS (s : String) : List String :=
  splitCommaAux s.data []

/-- Python `f"{x}"` for an optional string (`None` prints as `None`). -/
def optStr : Option String → String
  | none => "None"
  | some s => s

/-- Python `sorted` on strings (the keys are pairwise distinct, so
stability does not matter). -/
def insertStr (s : String) : List String → List String
  | [] => [s]
  | t :: rest => if s < t then s :: t :: rest else t :: insertStr s rest

def sortStrings : List String → List String
  | [] => []
  | s :: rest => insertStr s (sortStrings rest)

/-- A row of the lecturer table (`lecturers_df`), with the `.get`
defaults of the source resolved by the loader schema. -/
structure Lecturer where
  name : String
  jobTitle : String
  company : String
  program : String
  email : String
  profileUrl : String
  expertiseAreas : String
  background : String
deriving Repr, DecidableEq

/-- The `(courses, explanations, ai_response)` triple every handler
returns. -/
structure RecResult where
  courses : List Course
  explanations : List (String × List String)
  narrative : String
deriving Repr, DecidableEq

/-- The four `openings` of `_handle_unknown_query`. -/
def unknownOpening (i : Fin 4) (query : String) : String :=
  match i with
  | 0 => "Thanks for asking about **\"" ++ query ++ "\"**! "
  | 1 => "Interesting question about **\"" ++ query ++ "\"**! "
  | 2 => "I appreciate you asking about **\"" ++ query ++ "\"**. "
  | 3 => "Good question! You asked about **\"" ++ query ++ "\"**. "

/-- The four `limitations`. -/
def unknownLimitation (i : Fin 4) : String :=
  match i with
  | 0 => "I\x27m still learning and my knowledge is somewhat limited right now. "
  | 1 => "My vocabulary is growing every day, but I don\x27t have an answer for this specific question yet. "
  | 2 => "I\x27m an AI that\x27s continuously improving, and while I can\x27t fully answer this right now, "
  | 3 => "I don\x27t quite understand this question at the moment, but I\x27m learning more each day! "

/-- The four `closings`. -/
def unknownClosing (i : Fin 4) : String :=
  match i with
  | 0 => "Try asking one of these, and I\x27ll give you a detailed answer! My knowledge is growing, and I\x27m here to support your academic journey."
  | 1 => "Feel free to rephrase your question using the examples above. I\x27m getting smarter every day and want to help you succeed!"
  | 2 => "Don\x27t hesitate to ask in different words - I might understand better! I\x27m continuously learning to serve you better."
  | 3 => "Use the quick buttons below or try one of these questions. I\x27m improving constantly and committed to helping you!"

/-- Lines 2195-2270: the helpful-alternatives fallback.  The three
`random.choice` draws are the `Fin 4` parameters. -/
def handleUnknownQuery (oi li ci : Fin 4) (query major careerGoal : String) :
    RecResult :=
  let response :=
    unknownOpening oi query ++ unknownLimitation li ++
    "Let me guide you to what I can help with.\n\n" ++
    "**I\x27m really good at helping with:**\n\n" ++
    "**Finding Courses (" ++ major ++ "):**\n" ++
    "Ask me things like:\n" ++
    "- \"software\" or \"business\" or \"data science\"\n" ++
    "- \"ML courses\"\n" ++
    "- \"What courses should I take?\"\n" ++
    "- \"Show me programming classes\"\n\n" ++
    "**Class Schedules & Times:**\n" ++
    "- \"Morning classes\"\n" ++
    "- \"Evening courses\"\n" ++
    "- \"When is [course name]?\"\n\n" ++
    "**Instructors & Faculty:**\n" ++
    "- \"Lecturers\"\n" ++
    "- \"Who teaches machine learning?\"\n" ++
    "- \"Tell me about the professors\"\n\n" ++
    "**Student Support & Guidance:**\n" ++
    "- \"What if I skip mandatory class?\"\n" ++
    "- \"I have an issue\" or \"I need help\"\n" ++
    "- \"How to prepare for [course name]\"\n" ++
    "- \"What happens if I miss too many classes?\"\n\n" ++
    "**Academic Information:**\n" ++
    "- \"How long is bachelor?\" or \"program duration\"\n" ++
    "- \"What is mandatory vs audit?\"\n" ++
    "- \"Attendance policy\"\n" ++
    "- \"Career advice\"\n\n" ++
    (if careerGoal ≠ "" then
      "**Your Career Goal (" ++ careerGoal ++ "):**\n" ++
      "- \"Courses for " ++ careerGoal ++ "\"\n" ++
      "- \"Skills needed for " ++ careerGoal ++ "\"\n" ++
      "- \"Best path to become " ++ careerGoal ++ "\"\n\n"
     else "") ++
    unknownClosing ci
  ⟨[], [], response⟩

/-- Lines 931-949. -/
def handleGreeting (major careerGoal : String) : RecResult :=
  let response :=
    "Hello! I\x27m your AI Academic Advisor for **" ++ major ++ "**.\n\n" ++
    "I\x27m here to help you navigate your academic journey! " ++
    (if careerGoal ≠ "" then
      "I see you\x27re aiming for **" ++ careerGoal ++ "** - that\x27s an exciting goal!\n\n"
     else "Let\x27s explore your academic options together.\n\n") ++
    "**I can help you with:**\n\n" ++
    "**Course Discovery** - \"Show me ML courses\", \"Software development courses\"\n" ++
    "**Faculty Info** - \"Lecturers for data science\", \"Who teaches Python?\"\n" ++
    "**Schedules** - \"Morning classes\", \"Evening courses\"\n" ++
    "**Planning** - \"Module planning\", \"What should I take?\"\n" ++
    "**Guidance** - \"Career advice\", \"Preparation tips\"\n\n" ++
    "**What would you like to know?** Feel free to ask me anything!"
  ⟨[], [], response⟩

/-- Lines 951-992. -/
def handleAttendanceConsequences (query major : String) : RecResult :=
  let queryLower := lowerS query
  let response :=
    "I understand you\x27re asking about attendance requirements. Let me explain what happens:\n\n" ++
    (if inS "mandatory" queryLower = true ∨ inS "required" queryLower = true then
      "**For MANDATORY Courses:**\n\n" ++
      "Mandatory courses are essential for your degree, and attendance is strictly enforced:\n\n" ++
      "**Critical Rules:**\n" ++
      "- 3 or more absences = AUTOMATIC FAIL (no exceptions)\n" ++
      "- Being 10 minutes late = Counts as 1 absence\n" ++
      "- Failed mandatory course = Must retake it (delays graduation)\n\n" ++
      "**What This Means:**\n" ++
      "If your mandatory course has 15 sessions, you can miss maximum 2 classes. The 3rd absence automatically fails you.\n\n"
     else
      "**General Attendance Policy:**\n\n" ++
      "**For ALL Course Types:**\n" ++
      "- 3 or more absences in any course = FAIL\n" ++
      "- 10 minutes late = 1 absence\n\n" ++
      "**Consequences of Failing:**\n" ++
      "- Mandatory course: Must retake (delays graduation, affects GPA)\n" ++
      "- Secondary course: May need to replace with another course\n" ++
      "- Audit course: Removed from transcript\n\n") ++
    "**What If You Have a Valid Reason?**\n\n" ++
    "If you anticipate attendance issues due to:\n" ++
    "- Medical emergencies\n" ++
    "- Family emergencies\n" ++
    "- Schedule conflicts\n" ++
    "- Other serious situations\n\n" ++
    "**You should:**\n" ++
    "1. Contact the academic team IMMEDIATELY\n" ++
    "2. Provide documentation (medical certificate, etc.)\n" ++
    "3. Submit a concern through the Feedback tab\n" ++
    "4. Discuss alternatives (postpone, switch to audit, etc.)\n\n" ++
    "**Bottom Line:** Attendance is serious. Missing 3 classes means automatic failure. Plan ahead and communicate early if you foresee issues!\n\n" ++
    "Need help with a specific situation? Ask me \"I have an issue\" and I\x27ll guide you through the process."
  ⟨[], [], response⟩

/-- Lines 994-1059. -/
def handleStudentIssues (query major : String) : RecResult :=
  let queryLower := lowerS query
  let response :=
    "I\x27m here to help you navigate any challenges you\x27re facing. Let me guide you through the support process.\n\n" ++
    (if ["sick", "medical", "health", "hospital"].any
        (fun w => inS w queryLower) = true then
      "**Medical/Health Issue:**\n\n" ++
      "I understand health comes first. Here\x27s what you should do:\n\n" ++
      "**Immediate Steps:**\n" ++
      "1. Get medical documentation (doctor\x27s note, hospital certificate)\n" ++
      "2. Email your instructors ASAP about your situation\n" ++
      "3. Submit a concern through the Feedback tab (include \x27Medical Issue\x27)\n" ++
      "4. Contact the academic team: They can arrange:\n" ++
      "   - Excused absences (with documentation)\n" ++
      "   - Assignment extensions\n" ++
      "   - Module postponement if needed\n\n"
     else if ["work", "job", "schedule", "conflict"].any
        (fun w => inS w queryLower) = true then
      "**Schedule Conflict (Work/Personal):**\n\n" ++
      "Balancing work and studies is challenging. Here are your options:\n\n" ++
      "**Solutions:**\n" ++
      "1. Check for alternative time slots (morning/afternoon/evening)\n" ++
      "2. Consider switching mandatory to audit (less attendance pressure)\n" ++
      "3. Postpone the course to next module\n" ++
      "4. Discuss hybrid/flexible arrangements with academic team\n\n" ++
      "**Try asking me:**\n" ++
      "- \"Evening classes\" to see later options\n" ++
      "- \"What is audit\" to learn about flexible options\n\n"
     else
      "**General Support Process:**\n\n" ++
      "Whatever your situation, we\x27re here to help. Here\x27s how:\n\n") ++
    "**How to Get Help:**\n\n" ++
    "**1. Use the Feedback Tab (in the app)**\n" ++
    "   - Go to \x27Feedback\x27 tab\n" ++
    "   - Choose \x27Feature Requests & Course Concerns\x27\n" ++
    "   - Select \x27Mandatory Course Concerns\x27\n" ++
    "   - Explain your situation in detail\n" ++
    "   - Submit - Academic team reviews within 48 hours\n\n" ++
    "**2. Common Situations & Solutions:**\n\n" ++
    "**Issue: Can\x27t attend mandatory class**\n" ++
    "→ Options: Postpone, switch to secondary/audit, find alternative\n\n" ++
    "**Issue: Course too difficult**\n" ++
    "→ Options: Get tutoring, switch to beginner level, extend timeline\n\n" ++
    "**Issue: Financial constraints**\n" ++
    "→ Options: Scholarship info, payment plans, reduced course load\n\n" ++
    "**Issue: Personal/family emergency**\n" ++
    "→ Options: Temporary leave, postpone modules, flexible arrangements\n\n" ++
    "**3. What Happens Next:**\n" ++
    "- Academic team reviews your case\n" ++
    "- They contact you within 48 hours\n" ++
    "- You discuss solutions together\n" ++
    "- They provide accommodations when possible\n\n" ++
    "**Remember:** The earlier you communicate, the more options we have to help you succeed!\n\n" ++
    "**Need specific help?** Ask me:\n" ++
    "- \"What if I skip mandatory class\" - Understand consequences\n" ++
    "- \"How to prepare for [course name]\" - Get ready for tough courses\n" ++
    "- \"Alternative schedules\" - Find different time options"
  ⟨[], [], response⟩

/-- Python `str.upper` on a string. -/
def upperS (s : String) : String :=
  ⟨s.data.map upperChar⟩

/-- Lines 533-586. -/
def handleCourseTypeExplanation (coursesDf : List Course) (query major : String) :
    RecResult :=
  let majorCourses := (coursesDf.filter fun c =>
    inS (lowerS major) (lowerS c.category)).take 3
  let response :=
    "Let me explain the different course types and requirements:\n\n" ++
    "COURSE TYPES:\n\n" ++
    "1. Mandatory Courses\n" ++
    "   - Required courses you MUST take for your degree\n" ++
    "   - Count towards your graduation requirements\n" ++
    "   - Graded and recorded on your transcript\n" ++
    "   - Attendance is mandatory (3 or more absences = FAIL)\n\n" ++
    "2. Secondary Courses\n" ++
    "   - Recommended elective courses for your major\n" ++
    "   - Count towards your credits\n" ++
    "   - Graded and recorded on transcript\n" ++
    "   - Attendance is mandatory (3 or more absences = FAIL)\n" ++
    "   - You can choose which secondary courses to take\n\n" ++
    "3. Audit Courses\n" ++
    "   - Optional courses you can take for learning only\n" ++
    "   - NOT graded, marked as \x27Audit\x27 on transcript\n" ++
    "   - Do NOT count towards your degree credits\n" ++
    "   - Attendance is recommended but flexible\n" ++
    "   - Great for exploring interests without GPA impact\n" ++
    "   - You can still access all course materials and lectures\n\n" ++
    "ATTENDANCE POLICY:\n" ++
    "- **3 or more absences = AUTOMATIC FAIL** (no exceptions)\n" ++
    "- **Being 10 minutes late = 1 absence** (punctuality is critical)\n" ++
    "- Missing 3+ consecutive classes without notice: Warning issued\n" ++
    "- Audit courses: Flexible attendance (no strict requirements)\n\n" ++
    "WARNINGS:\n" ++
    "- 1st Warning: Email notification about low attendance\n" ++
    "- 2nd Warning: Meeting with academic advisor required\n" ++
    "- **3rd Absence: Automatic course failure** (no exceptions)\n" ++
    "- Academic probation may apply for repeated failures\n\n" ++
    (if majorCourses ≠ [] then
      "\nEXAMPLE from " ++ major ++ ":\n" ++
      String.join (majorCourses.map fun c =>
        "- " ++ c.courseName ++ " (" ++ c.courseId ++ "): " ++
          upperS c.courseType ++ "\n")
     else "") ++
    "\nWould you like to see all mandatory courses for your major, or help planning your semester?"
  ⟨majorCourses, [], response⟩

/-- The keys of `program_durations` (every value is
`{bachelor: 3, master: 1}`). -/
def programDurationKeys : List String :=
  ["Computer Science", "Data Science", "Cyber Security", "Front-End Development",
   "Front-end Development", "Interaction Design", "Digital Marketing",
   "High-Tech Entrepreneurship", "Digital Transformation", "Product Management",
   "Fintech", "Applied Data and Computer Science", "Computer Science Masters"]

/-- Lines 588-684.  The year-distribution block reads a `Year` column
that is not part of the course schema, so `years` is empty and the
block appends nothing. -/
def handleProgramDurationQuery (coursesDf : List Course)
    (query major program : String) : RecResult :=
  let queryLower := lowerS query
  let level :=
    if ["master", "masters", "msc", "graduate"].any
        (fun w => inS w queryLower) = true then "master"
    else if ["bachelor", "bachelors", "bsc", "undergraduate"].any
        (fun w => inS w queryLower) = true then "bachelor"
    else if program ≠ "" ∧ inS "master" (lowerS program) = true then "master"
    else "bachelor"
  let response :=
    "**Program Duration at Harbour.Space:**\n\n" ++
    (if major ≠ "" ∧ major ∈ programDurationKeys then
      let duration : Nat := if level = "master" then 1 else 3
      "**" ++ major ++ " (" ++ titleS level ++ "):** " ++ Nat.repr duration ++
        " year" ++ (if duration > 1 then "s" else "") ++ "\n\n"
     else "") ++
    "**General Program Lengths:**\n\n" ++
    "**Bachelor\x27s Degree:** 3 years (full-time)\n" ++
    "- Year 1: Foundation courses and core fundamentals\n" ++
    "- Year 2: Intermediate courses and specialization begins\n" ++
    "- Year 3: Advanced courses, electives, and capstone project\n\n" ++
    "**Master\x27s Degree:** 1 year (intensive)\n" ++
    "- Full-time intensive program\n" ++
    "- Focus on advanced topics and industry applications\n" ++
    "- Includes capstone project or thesis\n\n" ++
    "**Note:** All programs follow Harbour.Space\x27s unique module system:\n" ++
    "- Each module = 3 weeks\n" ++
    "- ~12 modules per year\n" ++
    "- Intensive, focused learning\n\n" ++
    (if inS "duration" queryLower = true ∨ inS "all" queryLower = true then
      "**Available Programs:**\n\n" ++
      "**Bachelor Programs (3 years):**\n" ++
      String.join (["Computer Science", "Data Science", "Cyber Security",
        "Front-End Development", "Interaction Design", "Digital Marketing",
        "High-Tech Entrepreneurship"].map fun p => "• " ++ p ++ "\n") ++
      "\n**Master Programs (1 year):**\n" ++
      String.join (["Digital Transformation", "Product Management", "Fintech",
        "Applied Data and Computer Science", "Interaction Design"].map
        fun p => "• " ++ p ++ "\n")
     else "") ++
    "\n**Want to know more?** Ask about:\n" ++
    "• Specific program structure\n" ++
    "• Module breakdown\n" ++
    "• Career outcomes after graduation"
  ⟨[], [], response⟩

/-- Lines 1788-1812. -/
def getPrerequisiteSkills (c : Course) : List String :=
  let courseName := lowerS c.courseName
  let difficulty := c.estimatedDifficulty
  let category := lowerS c.category
  ((if difficulty = "Advanced" then ["Intermediate " ++ category ++ " knowledge"]
    else []) ++
   (if inS "machine learning" courseName = true ∨ inS "deep learning" courseName = true then
      ["Python programming", "Basic statistics", "Linear algebra"]
    else if inS "data" courseName = true then
      ["Python basics", "SQL fundamentals"]
    else if inS "web" courseName = true ∨ inS "frontend" courseName = true then
      ["HTML/CSS basics", "JavaScript fundamentals"]
    else if inS "security" courseName = true ∨ inS "cyber" courseName = true then
      ["Networking basics", "Operating systems knowledge"]
    else if inS "database" courseName = true then
      ["SQL basics", "Data modeling concepts"]
    else [])).take 3

/-- Lines 686-740 (the `head(20)` scan is dead; the early-return shape
is kept: the closing question is only appended on the non-empty
branch). -/
def handlePreparationAdvice (coursesDf : List Course)
    (lmap : List (String × Lecturer))
    (query major careerGoal experienceLevel : String) : RecResult :=
  let majorCourses := (coursesDf.filter fun c =>
    inS (lowerS major) (lowerS c.category)).take 5
  let response :=
    "Great question! Let me help you prepare for your classes. Here\x27s what you should do:\n\n" ++
    "BEFORE YOUR FIRST CLASS:\n" ++
    "1. Review course materials and syllabus\n" ++
    "2. Set up your development environment (IDE, tools)\n" ++
    "3. Join the course communication channel\n" ++
    "4. Prepare questions about topics you\x27re curious about\n\n" ++
    "GENERAL PREPARATION TIPS:\n" ++
    "- Read ahead: Review next class topics the night before\n" ++
    "- Practice coding: Try small exercises related to upcoming topics\n" ++
    "- Connect with classmates: Form study groups early\n" ++
    "- Ask questions: Don\x27t hesitate to reach out to instructors\n\n" ++
    "FOR " ++ upperS major ++ " STUDENTS:\n"
  if majorCourses ≠ [] then
    let body :=
      "Recommended preparation for your major:\n\n" ++
      String.join (majorCourses.enum.map fun pr =>
        let c := pr.2
        let prereqSkills := getPrerequisiteSkills c
        Nat.repr (pr.1 + 1) ++ ". For " ++ c.courseName ++ ":\n" ++
        (if prereqSkills ≠ [] then
          "   - Brush up on: " ++ String.intercalate ", " (prereqSkills.take 3) ++ "\n"
         else "   - No prerequisites, perfect for beginners\n") ++
        (match lmap.lookup c.courseId with
         | some lect => "   - Taught by " ++ lect.name ++ " (" ++ lect.company ++ ")\n"
         | none => "") ++
        "\n")
    let explanations := majorCourses.map fun c =>
      (c.courseId, ["Preparation recommended", "Review prerequisite skills"])
    ⟨majorCourses, explanations,
      response ++ body ++
        "\nWould you like specific study resources or tips for any particular subject?"⟩
  else
    ⟨[], [], response⟩

/-- The `common_words` of `_handle_general_info_query`. -/
def giCommonWords : List String :=
  ["course", "class", "learn", "study", "teach", "help", "show", "find",
   "about", "what", "how", "when", "where", "who"]

/-- The `known_topics`. -/
def giKnownTopics : List String :=
  ["machine learning", "data science", "computer science", "cybersecurity",
   "cyber security", "programming", "web", "development", "python", "java",
   "javascript", "database", "ai", "artificial", "software", "business",
   "design", "marketing", "frontend", "backend", "mobile"]

/-- The `major_keywords` mapping, in insertion order. -/
def giMajorKeywords : List (String × List String) :=
  [("business", ["business", "entrepreneurship", "management", "mba"]),
   ("data science", ["data science", "data analytics", "analytics"]),
   ("computer science", ["computer science", "cs", "computing"]),
   ("cybersecurity", ["cybersecurity", "cyber security", "security", "infosec"]),
   ("design", ["design", "ux", "ui", "interaction design"]),
   ("marketing", ["marketing", "digital marketing", "social media"]),
   ("software development",
     ["software development", "software engineering", "programming"]),
   ("web development",
     ["web development", "web dev", "frontend", "backend", "fullstack"]),
   ("mobile", ["mobile", "app development", "android", "ios"])]

/-- Lines 742-844.  The pandas `str.contains(search_query, case=False)`
relevance filter is substring containment of the (already lowered)
query in the lowered field; the `try` around it cannot fail in this
pure form, so the `except` arm is unreachable. -/
def handleGeneralInfoQuery (oi li ci : Fin 4) (coursesDf : List Course)
    (lmap : List (String × Lecturer))
    (query major careerGoal experienceLevel program : String) : RecResult :=
  let queryLower := stripS (lowerS query)
  let hasCommonWord := giCommonWords.any fun w => inS w queryLower
  let hasKnownTopic := giKnownTopics.any fun t => inS t queryLower
  if queryLower.data.length < 3 then
    handleUnknownQuery oi li ci query major careerGoal
  else if hasCommonWord = false ∧ hasKnownTopic = false ∧
      (wordsOf query).length ≤ 3 then
    handleUnknownQuery oi li ci query major careerGoal
  else
    let targetMajor : Option String :=
      (giMajorKeywords.find? fun pr =>
        pr.2.any fun k => inS k queryLower).map Prod.fst
    let searchQuery := queryLower
    let relevant0 := coursesDf.filter fun c =>
      inS searchQuery (lowerS c.courseName) ∨
      inS searchQuery (lowerS c.courseDescription) ∨
      inS searchQuery (lowerS c.skillsCoveredStr) ∨
      inS searchQuery (lowerS c.category)
    let relevant1 :=
      match targetMajor with
      | some tm =>
          if relevant0 ≠ [] then
            let majorSpecific := relevant0.filter fun c : Course =>
              inS (lowerS tm) (lowerS c.category)
            if majorSpecific ≠ [] then majorSpecific else relevant0
          else relevant0
      | none => relevant0
    let relevantCourses := relevant1.take 8
    if relevantCourses = [] then
      handleUnknownQuery oi li ci query major careerGoal
    else
      let header :=
        match targetMajor with
        | some tm =>
            "**" ++ titleS tm ++ " Courses:**\n\n" ++
            "Great choice! Here are the best courses for " ++ tm ++ ":\n\n"
        | none => "**Courses for: " ++ query ++ "**\n\n"
      let body := String.join (relevantCourses.enum.map fun pr =>
        let c := pr.2
        Nat.repr (pr.1 + 1) ++ ". " ++ c.courseName ++ "\n" ++
        (match lmap.lookup c.courseId with
         | some l =>
             "   Instructor: " ++ l.name ++ " (" ++ l.jobTitle ++ ") from " ++
               l.company ++ "\n"
         | none => "") ++
        "   Level: " ++ c.estimatedDifficulty ++ " | Schedule: " ++
          c.classTime ++ "\n" ++
        "   " ++ takeS 120 c.courseDescription ++ "...\n\n")
      let explanations := relevantCourses.map fun c =>
        (c.courseId,
         ["Perfect for " ++ major ++ " students", "Taught by industry expert",
          "Practical, hands-on approach"])
      let closing :=
        "\nFor a " ++ experienceLevel ++ " student, I\x27d recommend starting with " ++
        ((relevantCourses.head?.map (fun c : Course => c.courseName)).getD "") ++ ". " ++
        "It provides a solid foundation. Would you like to know about prerequisites or course combinations?"
      ⟨relevantCourses, explanations, header ++ body ++ closing⟩

/-- Group lecturer rows by `program` in first-appearance order (the
Python dict insertion order). -/
def addLecturerToGroups (acc : List (String × List Lecturer)) (l : Lecturer) :
    List (String × List Lecturer) :=
  if acc.any fun pr => pr.1 = l.program then
    acc.map fun pr => if pr.1 = l.program then (pr.1, pr.2 ++ [l]) else pr
  else acc ++ [(l.program, [l])]

def lecturersByProgram (lecturers : List Lecturer) :
    List (String × List Lecturer) :=
  lecturers.foldl addLecturerToGroups []

/-- Lines 846-929. -/
def handleLecturerQuery (lecturers : List Lecturer) (query major : String) :
    RecResult :=
  let queryLower := lowerS query
  let groups := lecturersByProgram lecturers
  let allNames := lecturers.map fun l => lowerS l.name
  let specificPerson := allNames.find? fun n => inS n queryLower
  let specificResult : Option RecResult :=
    match specificPerson with
    | some person =>
        match lecturers.filter (fun l => lowerS l.name = person) with
        | lect :: _ =>
            some ⟨[], [],
              "**" ++ lect.name ++ "**\n\n" ++
              "**Position:** " ++ lect.jobTitle ++ "\n" ++
              "**Company:** " ++ lect.company ++ "\n" ++
              "**Program:** " ++ lect.program ++ "\n" ++
              "**Email:** " ++ lect.email ++ "\n" ++
              "**Profile:** " ++ lect.profileUrl ++ "\n\n" ++
              "**Expertise:** " ++ lect.expertiseAreas ++ "\n\n" ++
              "**Background:** " ++ lect.background⟩
        | [] => none
    | none => none
  match specificResult with
  | some r => r
  | none =>
    match groups.find? fun pr => inS (lowerS pr.1) queryLower with
    | some fieldPr =>
        let lects := fieldPr.2
        ⟨[], [],
          "**" ++ fieldPr.1 ++ " Instructors:**\n\n" ++
          "We have " ++ Nat.repr lects.length ++ " instructors teaching " ++
            fieldPr.1 ++ ":\n\n" ++
          String.join ((lects.take 10).enum.map fun pr =>
            let idx := pr.1 + 1
            Nat.repr idx ++ ". **" ++ pr.2.name ++ "**\n" ++
            "   " ++ pr.2.jobTitle ++ "\n" ++
            (if idx ≤ 5 then "   Email: " ++ pr.2.email ++ "\n" else "") ++
            "\n") ++
          (if lects.length > 10 then
            "\n...and " ++ Nat.repr (lects.length - 10) ++ " more instructors.\n"
           else "") ++
          "\n**Tip: Ask about a specific instructor by name for more details!**"⟩
    | none =>
        ⟨[], [],
          "I can tell you about our instructors! **Which field are you interested in?**\n\n" ++
          "We have expert faculty in:\n\n" ++
          String.join (((sortStrings (groups.map Prod.fst)).take 10).map fun p =>
            "• **" ++ p ++ "** (" ++
              Nat.repr (((groups.lookup p).getD []).length) ++ " instructors)\n") ++
          "\n**Examples:**\n" ++
          "• \"Computer Science lecturers\"\n" ++
          "• \"Who teaches Data Science?\"\n" ++
          "• \"Tell me about [Instructor Name]\""⟩

/-- The `general_topics` of `_handle_specific_class_preparation`. -/
def prepGeneralTopics : List (String × List String) :=
  [("data science", ["statistics", "Python/R programming", "data visualization",
      "machine learning basics", "SQL"]),
   ("software", ["programming fundamentals", "data structures", "algorithms",
      "version control (Git)", "problem-solving", "debugging"]),
   ("software development", ["programming fundamentals", "data structures",
      "algorithms", "version control (Git)", "problem-solving", "debugging"]),
   ("machine learning", ["Python programming", "statistics & probability",
      "linear algebra", "calculus", "data preprocessing"]),
   ("ml", ["Python programming", "statistics & probability", "linear algebra",
      "mathematics", "data handling"]),
   ("web development", ["HTML/CSS", "JavaScript", "responsive design",
      "backend basics", "databases"]),
   ("web", ["HTML/CSS", "JavaScript", "responsive design", "browser tools",
      "basic design"]),
   ("cybersecurity", ["networking fundamentals", "operating systems",
      "basic programming", "security concepts", "ethical mindset"]),
   ("cyber", ["networking basics", "system administration",
      "security principles", "ethical hacking concepts"]),
   ("business", ["communication skills", "basic accounting", "market research",
      "analytical thinking", "presentation skills"]),
   ("design", ["design principles", "color theory", "typography",
      "design tools (Figma/Adobe)", "user empathy"]),
   ("marketing", ["communication", "psychology basics",
      "social media familiarity", "analytics", "creativity"]),
   ("computer science", ["programming fundamentals", "mathematics", "logic",
      "algorithms", "problem-solving"]),
   ("programming", ["logic", "syntax fundamentals", "problem decomposition",
      "debugging skills", "practice"])]

/-- One entry of `preparation_guides`. -/
structure PrepGuide where
  tools : List String
  languages : List String
  practice : List String
  research : List String
  resources : List String
deriving Repr, DecidableEq

/-- The `preparation_guides` table. -/
def prepGuides : List (String × PrepGuide) :=
  let software : PrepGuide :=
    ⟨["VS Code or PyCharm", "Git and GitHub", "Terminal/Command Line", "Docker (basics)"],
     ["Python", "JavaScript", "Java or C++"],
     ["Build a calculator app", "Create a to-do list app",
      "Contribute to open-source projects", "Solve LeetCode Easy problems"],
     ["Data structures (arrays, linked lists)", "Algorithms (sorting, searching)",
      "Object-oriented programming", "Design patterns"],
     ["freeCodeCamp.org", "LeetCode.com", "GitHub for projects",
      "Book: \"Clean Code\" by Robert Martin"]⟩
  let ml : PrepGuide :=
    ⟨["Python", "Jupyter Notebook", "scikit-learn", "TensorFlow or PyTorch",
      "Google Colab"],
     ["Python (essential)", "R (optional)"],
     ["Train a simple classification model",
      "Implement linear regression from scratch", "Build image classifier",
      "Kaggle competitions"],
     ["Supervised vs unsupervised learning", "Neural networks basics",
      "Gradient descent", "Overfitting and regularization"],
     ["Andrew Ng\x27s ML course on Coursera", "Fast.ai courses", "Kaggle Learn",
      "Book: \"Hands-On Machine Learning\""]⟩
  let web : PrepGuide :=
    ⟨["VS Code", "Chrome DevTools", "Postman", "npm/yarn", "Git"],
     ["HTML", "CSS", "JavaScript", "Node.js"],
     ["Build personal portfolio site", "Create landing pages", "Build REST API",
      "Deploy to Netlify/Vercel"],
     ["Responsive design", "CSS Flexbox and Grid", "DOM manipulation",
      "HTTP methods and APIs"],
     ["MDN Web Docs", "freeCodeCamp Web Dev", "JavaScript30.com",
      "Frontend Mentor challenges"]⟩
  let cyber : PrepGuide :=
    ⟨["VirtualBox or VMware", "Kali Linux", "Wireshark", "Metasploit", "Burp Suite"],
     ["Python (for scripts)", "Bash scripting", "PowerShell"],
     ["Set up virtual lab", "Practice on HackTheBox", "Complete TryHackMe rooms",
      "Capture The Flag challenges"],
     ["Network protocols", "Common vulnerabilities (OWASP Top 10)",
      "Encryption basics", "Penetration testing methodology"],
     ["TryHackMe.com", "HackTheBox.eu", "OWASP resources",
      "Book: \"The Web Application Hacker\x27s Handbook\""]⟩
  [("data science",
    ⟨["Python (install Anaconda)", "Jupyter Notebook", "pandas library",
      "NumPy library", "Matplotlib"],
     ["Python (primary)", "SQL for databases", "R (optional)"],
     ["Kaggle datasets analysis", "Clean and visualize CSV files",
      "Build simple prediction models", "Create data dashboards"],
     ["Statistics fundamentals", "Probability theory", "Linear regression",
      "Data cleaning techniques"],
     ["Kaggle.com for datasets", "DataCamp Python courses",
      "Coursera \"Python for Data Science\"",
      "Book: \"Python Data Science Handbook\""]⟩),
   ("software", software),
   ("software development", software),
   ("machine learning", ml),
   ("ml", ml),
   ("web development", web),
   ("web", web),
   ("cybersecurity", cyber),
   ("cyber", cyber),
   ("business",
    ⟨["Excel/Google Sheets", "PowerPoint/Google Slides", "Notion or Trello",
      "Canva for presentations"],
     ["None required"],
     ["Analyze business case studies", "Create business plan template",
      "Build financial model in Excel", "Present mock pitches"],
     ["Business model canvas", "SWOT analysis", "Market research methods",
      "Financial statements basics"],
     ["Harvard Business Review", "Coursera Business courses",
      "Case studies from your field", "Book: \"The Lean Startup\""]⟩),
   ("design",
    ⟨["Figma (free)", "Adobe XD", "Canva", "Pen and paper for sketching"],
     ["None required"],
     ["Redesign existing apps", "Create 30-day UI challenge",
      "Build design system", "Copy popular designs"],
     ["Design principles (CRAP)", "Color theory", "Typography rules",
      "User psychology", "Accessibility standards"],
     ["Dribbble for inspiration", "Behance portfolios", "Refactoring UI book",
      "Daily UI challenges"]⟩),
   ("marketing",
    ⟨["Google Analytics", "Google Ads", "Mailchimp", "Canva", "Hootsuite"],
     ["None required"],
     ["Run mock ad campaigns", "Analyze competitor websites",
      "Create content calendar", "Write marketing copy"],
     ["SEO basics", "Content marketing", "Social media algorithms",
      "Email marketing best practices", "Conversion optimization"],
     ["Google Digital Garage", "HubSpot Academy", "Neil Patel blog",
      "Book: \"Contagious\" by Jonah Berger"]⟩),
   ("computer science",
    ⟨["VS Code or IntelliJ", "Git", "Terminal", "Python or Java IDE"],
     ["Python", "Java", "C++ (one of these)"],
     ["Solve algorithmic problems", "Build data structures from scratch",
      "Contribute to open-source", "Complete coding challenges"],
     ["Algorithms complexity", "Data structures", "Computer architecture",
      "Operating systems basics"],
     ["LeetCode", "HackerRank", "CS50 by Harvard",
      "Book: \"Introduction to Algorithms\" (CLRS)"]⟩),
   ("programming",
    ⟨["VS Code", "Git and GitHub", "Terminal/Command Line",
      "Python or JavaScript"],
     ["Python (beginner-friendly)", "JavaScript (for web)"],
     ["100 Days of Code challenge", "Build 10 small projects",
      "Solve Codewars katas", "Read other people\x27s code"],
     ["Variables and data types", "Control flow (if/else, loops)", "Functions",
      "Debugging techniques"],
     ["Codecademy", "Python.org tutorial", "Automate the Boring Stuff book",
      "freeCodeCamp"]⟩)]

/-- Lines 1061-1341. -/
def handleSpecificClassPreparation (coursesDf : List Course)
    (lmap : List (String × Lecturer)) (query major : String) : RecResult :=
  let queryLower := lowerS query
  match prepGeneralTopics.find? fun pr => inS pr.1 queryLower with
  | some pr =>
      match prepGuides.lookup pr.1 with
      | some guide =>
          ⟨[], [],
            "**Preparing for " ++ titleS pr.1 ++ "**\n\n" ++
            "Here\x27s your actionable preparation plan:\n\n" ++
            "**1. Tools to Install & Practice:**\n" ++
            String.join (guide.tools.map fun x => "- " ++ x ++ "\n") ++ "\n" ++
            "**2. Programming Languages to Learn:**\n" ++
            String.join (guide.languages.map fun x => "- " ++ x ++ "\n") ++ "\n" ++
            "**3. Hands-On Practice Projects:**\n" ++
            String.join (guide.practice.map fun x => "- " ++ x ++ "\n") ++ "\n" ++
            "**4. Topics to Research:**\n" ++
            String.join (guide.research.map fun x => "- " ++ x ++ "\n") ++ "\n" ++
            "**5. Recommended Resources:**\n" ++
            String.join (guide.resources.map fun x => "- " ++ x ++ "\n") ++ "\n" ++
            "**Action Plan:**\n" ++
            "Week 1-2: Install tools, complete basic tutorials\n" ++
            "Week 3-4: Start first practice project\n" ++
            "Week 5-6: Research advanced topics, build portfolio\n" ++
            "Week 7-8: Apply to our courses, continue practicing\n\n" ++
            "**Ready to Enroll:**\n" ++
            "Once comfortable with basics, check our " ++ titleS pr.1 ++
              " courses in the Smart Path Planner!"⟩
      | none =>
          ⟨[], [],
            "**Preparing for " ++ titleS pr.1 ++ "**\n\n" ++
            "Essential skills: " ++ String.intercalate ", " pr.2 ++ "\n\n" ++
            "Practice consistently, build projects, and join relevant communities.\n" ++
            "Check our " ++ titleS pr.1 ++ " courses when ready!"⟩
  | none =>
    match coursesDf.find? fun c => inS (lowerS c.courseName) queryLower with
    | some c =>
        ⟨[], [],
          "**Preparing for " ++ c.courseName ++ "**\n\n" ++
          "Great question! Here\x27s how to get ready for this course:\n\n" ++
          "**Skills You Should Have:**\n" ++
          (if c.skillsCoveredStr ≠ "" ∧ c.skillsCoveredStr ≠ "nan" then
            "Make sure you\x27re comfortable with:\n" ++
            String.join ((((splitCommaS c.skillsCoveredStr).map stripS).take 5).map
              fun sk => "- " ++ sk ++ "\n") ++ "\n"
           else
            "- Basic understanding of " ++ major ++ "\n" ++
            "- Strong problem-solving skills\n\n") ++
          "**Course Difficulty:** " ++ c.estimatedDifficulty ++ "\n\n" ++
          (if c.estimatedDifficulty = "Advanced" then
            "**This is an advanced course.** Make sure you:\n" ++
            "- Have completed prerequisite courses\n" ++
            "- Are comfortable with foundational concepts\n" ++
            "- Are ready for challenging projects\n\n"
           else if c.estimatedDifficulty = "Beginner" then
            "**This is a beginner-friendly course.** You should:\n" ++
            "- Come with an open mind\n" ++
            "- Be ready to learn from scratch\n" ++
            "- Practice consistently\n\n"
           else "") ++
          (match lmap.lookup c.courseId with
           | some l =>
               "**Instructor:** " ++ l.name ++ "\n" ++
               "Role: " ++ l.jobTitle ++ "\n" ++
               "Expertise: " ++ l.expertiseAreas ++ "\n\n"
           | none => "") ++
          "**Before First Class:**\n" ++
          "1. Review any prerequisites or recommended readings\n" ++
          "2. Set up your development environment (if technical course)\n" ++
          "3. Join the course communication channel\n" ++
          "4. Prepare questions you want answered\n\n" ++
          "**During the Course:**\n" ++
          "- Attend ALL classes (remember: 3 absences = fail!)\n" ++
          "- Take detailed notes\n" ++
          "- Ask questions when confused\n" ++
          "- Start assignments early\n" ++
          "- Form study groups with classmates\n\n" ++
          "**Time Commitment:** 3 weeks, " ++ Nat.repr c.credits ++ " credits\n" ++
          "Each week requires significant dedication outside of class time.\n\n" ++
          "Ready to enroll? Check the Smart Path Planner to add this course to your schedule!"⟩
    | none =>
        ⟨[], [],
          "**Preparing for Your Classes**\n\n" ++
          "I didn\x27t catch which specific course you\x27re asking about, but here\x27s general preparation advice:\n\n" ++
          "**Before Any Course Starts:**\n" ++
          "1. **Research the course:**\n" ++
          "   - Read the course description\n" ++
          "   - Check what skills are covered\n" ++
          "   - See who the instructor is\n\n" ++
          "2. **Assess prerequisites:**\n" ++
          "   - Do you have the required background?\n" ++
          "   - Need to review any concepts?\n" ++
          "   - Should you take a prep course first?\n\n" ++
          "3. **Plan your time:**\n" ++
          "   - Each module is 3 weeks\n" ++
          "   - Count on 10-15 hours/week per course\n" ++
          "   - Can you commit to the schedule?\n\n" ++
          "4. **Prepare mentally:**\n" ++
          "   - Ready to learn actively (not just passively)\n" ++
          "   - Open to challenges and making mistakes\n" ++
          "   - Committed to showing up (3 absences = fail!)\n\n" ++
          "**To get specific preparation tips:**\n" ++
          "Ask me: \"How to prepare for [course name]\" with the actual course name\n\n" ++
          "**Example:**\n" ++
          "- \"How to prepare for Introduction to Machine Learning\"\n" ++
          "- \"Get ready for Web Development Fundamentals\"\n\n" ++
          "I\x27ll give you detailed, course-specific preparation guidance!"⟩

/-- The per-course info dict of `_handle_schedule_query`. -/
structure CourseTimeInfo where
  id : String
  name : String
  time : String
  difficulty : String
deriving Repr, DecidableEq

/-- Time-bucket tests of the `if/elif` classification (case-sensitive
substring checks, exactly as in the source). -/
def ctMorning (i : CourseTimeInfo) : Bool :=
  inS "Morning" i.time || inS "9" i.time

def ctAfternoon (i : CourseTimeInfo) : Bool :=
  !(ctMorning i) && (inS "Afternoon" i.time || inS "1" i.time || inS "2" i.time)

def ctEvening (i : CourseTimeInfo) : Bool :=
  !(ctMorning i) && !(ctAfternoon i)

/-- A numbered course line of the time-filtered schedule answers. -/
def schedLine (pr : Nat × CourseTimeInfo) : String :=
  Nat.repr (pr.1 + 1) ++ ". **" ++ pr.2.name ++ "**\n" ++
  "   Time: " ++ pr.2.time ++ " | Level: " ++ pr.2.difficulty ++ "\n\n"

/-- Lines 1343-1450. -/
def handleScheduleQuery (coursesDf : List Course) (query major : String) :
    RecResult :=
  let queryLower := lowerS query
  let timeFilter : Option String :=
    if inS "morning" queryLower = true then some "morning"
    else if inS "afternoon" queryLower = true then some "afternoon"
    else if inS "evening" queryLower = true then some "evening"
    else none
  let majorCourses := (coursesDf.filter fun c =>
    inS (lowerS major) (lowerS c.category)).take 15
  let infos := majorCourses.map fun c =>
    CourseTimeInfo.mk c.courseId c.courseName c.classTime c.estimatedDifficulty
  let morning := infos.filter ctMorning
  let afternoon := infos.filter ctAfternoon
  let evening := infos.filter ctEvening
  let explanations := majorCourses.map fun c =>
    (c.courseId, ["Scheduled: " ++ c.classTime,
      "Duration: 3 weeks, 3 hours 20 min per session"])
  match timeFilter with
  | some "morning" =>
      ⟨coursesDf.filter fun c =>
          ((morning.take 6).map CourseTimeInfo.id).contains c.courseId,
       explanations,
       "**Morning Classes for " ++ major ++ "** (9:00 AM - 12:20 PM)\n\n" ++
       "Perfect for early birds! Here are available morning courses:\n\n" ++
       String.join ((morning.take 6).enum.map schedLine) ++
       (if morning.length > 6 then
         "_+ " ++ Nat.repr (morning.length - 6) ++ " more morning courses available_\n\n"
        else "") ++
       "Would you like details on any specific course?"⟩
  | some "afternoon" =>
      ⟨coursesDf.filter fun c =>
          ((afternoon.take 6).map CourseTimeInfo.id).contains c.courseId,
       explanations,
       "**Afternoon Classes for " ++ major ++ "** (1:00 PM - 4:20 PM)\n\n" ++
       "Great for afternoon learners! Here are available afternoon courses:\n\n" ++
       String.join ((afternoon.take 6).enum.map schedLine) ++
       (if afternoon.length > 6 then
         "_+ " ++ Nat.repr (afternoon.length - 6) ++ " more afternoon courses available_\n\n"
        else "") ++
       "Would you like details on any specific course?"⟩
  | some "evening" =>
      ⟨coursesDf.filter fun c =>
          ((evening.take 6).map CourseTimeInfo.id).contains c.courseId,
       explanations,
       "**Evening Classes for " ++ major ++ "** (5:00 PM - 8:20 PM)\n\n" ++
       "Perfect for night owls! Here are available evening courses:\n\n" ++
       String.join ((evening.take 6).enum.map schedLine) ++
       (if evening.length > 6 then
         "_+ " ++ Nat.repr (evening.length - 6) ++ " more evening courses available_\n\n"
        else "") ++
       "Would you like details on any specific course?"⟩
  | _ =>
      ⟨majorCourses.take 9, explanations,
       "**Schedule Overview for " ++ major ++ " Courses**\n\n" ++
       "**Morning Sessions** (9:00 AM - 12:20 PM):\n" ++
       String.join ((morning.take 3).map fun i =>
         "  • " ++ i.name ++ " - " ++ i.difficulty ++ "\n") ++
       "\n**Afternoon Sessions** (1:00 PM - 4:20 PM):\n" ++
       String.join ((afternoon.take 3).map fun i =>
         "  • " ++ i.name ++ " - " ++ i.difficulty ++ "\n") ++
       "\n**Evening Sessions** (5:00 PM - 8:20 PM):\n" ++
       String.join ((evening.take 3).map fun i =>
         "  • " ++ i.name ++ " - " ++ i.difficulty ++ "\n") ++
       "\n**Tip:** Choose time slots that match your productivity hours!\n" ++
       "Try: \"morning classes\" or \"evening courses\" for more details."⟩

/-- Lines 1452-1492.  The `'|'.join(keywords)` regex alternation of
`str.contains(..., case=False)` matches when any keyword occurs. -/
def handleCareerQuery (coursesDf : List Course)
    (lmap : List (String × Lecturer))
    (query major careerGoal experienceLevel : String) : RecResult :=
  let careerKeywords := getCareerKeywords
    (if careerGoal ≠ "" then careerGoal else query)
  let cc0 := (coursesDf.filter fun c =>
    (careerKeywords.any fun k => inS (lowerS k) (lowerS c.skillsCoveredStr)) ||
    (careerKeywords.any fun k => inS (lowerS k) (lowerS c.courseDescription))).take 4
  let careerCourses :=
    if cc0 = [] then
      (coursesDf.filter fun c => inS (lowerS major) (lowerS c.category)).take 4
    else cc0
  let explanations := careerCourses.map fun c =>
    (c.courseId,
     ["Essential for " ++ (if careerGoal ≠ "" then careerGoal else "your career"),
      "Industry-relevant skills", "Taught by professionals"])
  ⟨careerCourses, explanations,
   "Let\x27s plan your path to " ++
     (if careerGoal ≠ "" then careerGoal else "success") ++ "!\n\n" ++
   "Career-Aligned Courses:\n\n" ++
   String.join (careerCourses.enum.map fun pr =>
     let c := pr.2
     Nat.repr (pr.1 + 1) ++ ". " ++ c.courseName ++ "\n" ++
     "   Why: Prepares you for " ++
       (if careerGoal ≠ "" then careerGoal else "industry roles") ++ "\n" ++
     "   Industry value: High demand skill\n" ++
     (match lmap.lookup c.courseId with
      | some l => "   Instructor: " ++ l.name ++ " at " ++ l.company ++ "\n"
      | none => "") ++
     "\n") ++
   "\nCareer Tip: Combine technical courses with projects. Consider auditing complementary courses to broaden your skill set. Would you like advice on course priority?"⟩

/-- Lines 1494-1546. -/
def handleModulePlanningQuery (coursesDf : List Course)
    (lmap : List (String × Lecturer))
    (query major careerGoal experienceLevel program : String) : RecResult :=
  let majorCourses0 := (coursesDf.filter fun c =>
    inS (lowerS major) (lowerS c.category)).take 6
  let majorCourses := if majorCourses0 = [] then coursesDf.take 6
    else majorCourses0
  let mandatory := majorCourses.filter fun c => c.courseType = "mandatory"
  let secondary := majorCourses.filter fun c => c.courseType = "secondary"
  let moduleCourses :=
    match mandatory with
    | m0 :: m1 :: _ => [m0, m1]
    | [m0] =>
        m0 :: (match secondary with
               | s0 :: _ => [s0]
               | [] => [])
    | [] =>
        match secondary with
        | s0 :: s1 :: _ => [s0, s1]
        | _ => []
  let explanations := moduleCourses.map fun c =>
    (c.courseId,
     ["Core course for " ++ major, "Scheduled: " ++ c.classTime])
  ⟨(if moduleCourses ≠ [] then moduleCourses else majorCourses.take 3),
   explanations,
   "Here\x27s a suggested module plan for " ++ major ++ ":\n\n" ++
   "Module 1 (Current - 3 weeks):\n" ++
   String.join (moduleCourses.enum.map fun pr =>
     let c := pr.2
     "  " ++ Nat.repr (pr.1 + 1) ++ ". " ++ c.courseName ++ " (" ++
       c.courseId ++ ")\n" ++
     "     Time: " ++ c.classTime ++ " | Credits: " ++ Nat.repr c.credits ++ "\n" ++
     (match lmap.lookup c.courseId with
      | some l => "     Instructor: " ++ l.name ++ "\n"
      | none => "")) ++
   "\nModule 2 (Next - 3 weeks):\n" ++
   "  Coming soon - will be planned based on your progress\n\n" ++
   "Module 3 (Future):\n" ++
   "  Coming soon - advanced courses\n\n" ++
   "Each module runs for 3 weeks with 3-4 courses. Would you like details on any specific course or help with scheduling?"⟩

/-- The `program_mappings` of `_handle_program_info_query`, in order. -/
def programMappings : List (String × List String) :=
  [("Computer Science", ["computer science", "cs", "computing"]),
   ("Data Science", ["data science", "data analytics", "analytics"]),
   ("Cyber Security", ["cyber security", "cybersecurity", "infosec", "security"]),
   ("Front-End Development",
     ["front-end development", "frontend development", "frontend", "front-end",
      "web development"]),
   ("Interaction Design",
     ["interaction design", "ux design", "ui design", "design"]),
   ("Digital Marketing", ["digital marketing", "marketing"]),
   ("High-Tech Entrepreneurship",
     ["entrepreneurship", "high-tech entrepreneurship", "business", "startup"]),
   ("Digital Transformation", ["digital transformation", "transformation"]),
   ("Product Management", ["product management", "pm"]),
   ("Fintech", ["fintech", "financial technology"]),
   ("Applied Data and Computer Science",
     ["applied data", "applied computer science"])]

/-- `type_order`: mandatory 1, secondary 2, audit 3, anything else 4. -/
def typeOrder (c : Course) : Nat :=
  if c.courseType = "mandatory" then 1
  else if c.courseType = "secondary" then 2
  else if c.courseType = "audit" then 3
  else 4

/-- The `sort_values('type_order')` pass, as a stable insertion sort on
the key (pandas\x27 default quicksort may permute equal keys; the order
inside a type group is not observable in the claims proved here). -/
def insertByTypeOrder (c : Course) : List Course → List Course
  | [] => [c]
  | d :: rest =>
      if typeOrder c < typeOrder d then c :: d :: rest
      else d :: insertByTypeOrder c rest

def sortByTypeOrder : List Course → List Course
  | [] => []
  | c :: rest => insertByTypeOrder c (sortByTypeOrder rest)

/-- Lines 1548-1672. -/
def handleProgramInfoQuery (coursesDf : List Course)
    (lmap : List (String × Lecturer))
    (query major careerGoal experienceLevel program : String) : RecResult :=
  let queryLower := lowerS query
  let targetProgram :=
    match programMappings.find? fun pr =>
        pr.2.any fun k => inS k queryLower with
    | some pr => pr.1
    | none => if program ≠ "" then program else major
  let programCourses0 := coursesDf.filter fun c =>
    inS (lowerS targetProgram) (lowerS c.category)
  if programCourses0 = [] then
    ⟨[], [],
     "I couldn\x27t find courses specifically for " ++ targetProgram ++ ".\n\n" ++
     "Available programs include:\n" ++
     "- Computer Science\n" ++
     "- Data Science\n" ++
     "- Cyber Security\n" ++
     "- Front-End Development\n" ++
     "- Interaction Design\n" ++
     "- Digital Marketing\n" ++
     "- High-Tech Entrepreneurship\n" ++
     "- Fintech\n" ++
     "- Product Management\n" ++
     "- Digital Transformation\n\n" ++
     "Which program would you like to learn about?"⟩
  else
    let programCourses := sortByTypeOrder programCourses0
    let mandatory := programCourses.filter fun c => c.courseType = "mandatory"
    let secondary := programCourses.filter fun c => c.courseType = "secondary"
    let audit := programCourses.filter fun c => c.courseType = "audit"
    let explanations :=
      (mandatory.take 10).map (fun c =>
        (c.courseId,
         ["Mandatory course for " ++ targetProgram, "Required for graduation",
          "Taught by industry expert"])) ++
      (secondary.take 10).map (fun c =>
        (c.courseId,
         ["Elective for " ++ targetProgram, "Counts towards credits"])) ++
      (audit.take 5).map (fun c =>
        (c.courseId,
         ["Audit course - no credits", "For learning and exploration"]))
    ⟨programCourses.take 15, explanations,
     "**" ++ targetProgram ++ " Program**\n\n" ++
     "Total Courses Available: " ++ Nat.repr programCourses.length ++ "\n\n" ++
     (if mandatory ≠ [] then
       "**MANDATORY COURSES (" ++ Nat.repr mandatory.length ++ " courses):**\n" ++
       "These are required for graduation:\n\n" ++
       String.join ((mandatory.take 10).enum.map fun pr =>
         let c := pr.2
         Nat.repr (pr.1 + 1) ++ ". " ++ c.courseName ++ " (" ++ c.courseId ++ ")\n" ++
         "   Credits: " ++ Nat.repr c.credits ++ " | Level: " ++
           c.estimatedDifficulty ++ "\n" ++
         "   Schedule: " ++ c.classTime ++ "\n" ++
         (match lmap.lookup c.courseId with
          | some l => "   Instructor: " ++ l.name ++ "\n"
          | none => "") ++
         "   " ++ takeS 100 c.courseDescription ++ "...\n\n")
      else "") ++
     (if secondary ≠ [] then
       "\n**SECONDARY/ELECTIVE COURSES (" ++ Nat.repr secondary.length ++
         " courses):**\n" ++
       "Recommended courses to enhance your skills:\n\n" ++
       String.join ((secondary.take 10).enum.map fun pr =>
         let c := pr.2
         Nat.repr (pr.1 + 1) ++ ". " ++ c.courseName ++ " (" ++ c.courseId ++ ")\n" ++
         "   Credits: " ++ Nat.repr c.credits ++ " | Level: " ++
           c.estimatedDifficulty ++ "\n" ++
         "   Schedule: " ++ c.classTime ++ "\n\n")
      else "") ++
     (if audit ≠ [] then
       "\n**AUDIT COURSES (" ++ Nat.repr audit.length ++ " courses):**\n" ++
       "Additional learning opportunities (no credits):\n\n" ++
       String.join ((audit.take 5).enum.map fun pr =>
         Nat.repr (pr.1 + 1) ++ ". " ++ pr.2.courseName ++ " (" ++
           pr.2.courseId ++ ")\n\n")
      else "") ++
     "\n**Program Highlights:**\n" ++
     "- Total courses: " ++ Nat.repr programCourses.length ++ "\n" ++
     "- Mandatory courses: " ++ Nat.repr mandatory.length ++ "\n" ++
     "- Elective courses: " ++ Nat.repr secondary.length ++ "\n" ++
     "- Duration: 3 weeks per course\n" ++
     "- Schedule: Morning, Afternoon, or Evening slots\n\n" ++
     "Would you like details on any specific course or help planning your module schedule?"⟩

/-- Lines 1814-1834.  `set(...)` intersection cardinality is the count
of distinct main skills present among the audit course\x27s skills. -/
def getAuditCombinationSuggestion (mainCourse : Course)
    (allCourses : List Course) : Option String :=
  let mainSkills := (splitCommaS (lowerS mainCourse.skillsCoveredStr)).eraseDups
  let auditCourses := allCourses.filter fun c => c.courseType = "audit"
  (auditCourses.find? fun a =>
    (a.courseId ≠ mainCourse.courseId) &&
    (let auditSkills := (splitCommaS (lowerS a.skillsCoveredStr)).eraseDups
     let overlap := (mainSkills.filter fun s => auditSkills.contains s).length
     0 < overlap && overlap < 3)).map
    fun a => a.courseName ++ " (" ++ a.courseId ++ ")"

/-- Lines 1731-1786. -/
def generateDetailedExplanations (lmap : List (String × Lecturer))
    (courses : List Course)
    (major careerGoal experienceLevel program : String) (query : Option String) :
    List (String × List String) :=
  courses.map fun c =>
    (c.courseId,
     ["**Best for:** " ++ major ++ " students in " ++ program ++ " program"] ++
     [(if c.courseType = "mandatory" then
         "**Course Type:** Required core course for " ++ major ++ " - 6 credits"
       else if c.courseType = "secondary" then
         "**Course Type:** Graded elective - 4 credits (counts toward degree)"
       else
         "**Course Type:** Audit option - 0 credits (explore without grades)")] ++
     ["**Difficulty Level:** " ++ c.estimatedDifficulty ++ " - Suitable for " ++
        experienceLevel ++ " students"] ++
     (match lmap.lookup c.courseId with
      | some l =>
          ["**Instructor:** " ++ l.name ++ ", " ++ l.jobTitle ++ " at " ++ l.company,
           "**Expertise:** " ++ l.expertiseAreas]
      | none => []) ++
     (let pre := getPrerequisiteSkills c
      if pre ≠ [] then ["**Skills to Prepare:** " ++ String.intercalate ", " pre]
      else []) ++
     (if careerGoal ≠ "" then
       let ck := getCareerKeywords careerGoal
       let courseSkills := splitCommaS (lowerS c.skillsCoveredStr)
       if (courseSkills.filter fun s => ck.any fun k => inS k s) ≠ [] then
         ["**Career Relevance:** Directly applicable to " ++ careerGoal ++ " role"]
       else []
      else []) ++
     (match getAuditCombinationSuggestion c courses with
      | some s => ["**Recommended Audit Combination:** Pair with " ++ s]
      | none => []) ++
     ["**Duration:** 3 weeks intensive | **Credits:** " ++ Nat.repr c.credits])

/-- Lines 1836-1883. -/
def generateConversationalResponse (lmap : List (String × Lecturer))
    (courses : List Course) (explanations : List (String × List String))
    (major careerGoal : String) (query : Option String) : String :=
  if courses = [] then
    "I couldn\x27t find specific courses matching that query. As a " ++ major ++
    " student, I can help you with course recommendations, lecturer information, schedules, or module planning. What would you like to know?"
  else
    let introElse :=
      if careerGoal ≠ "" then
        "For " ++ careerGoal ++ ", I recommend these courses:\n\n"
      else
        "Based on your " ++ major ++ " major, here are relevant courses:\n\n"
    let intro :=
      match query with
      | some q =>
          if q ≠ "" ∧ (wordsOf q).length ≤ 2 then
            "Here are the " ++ q ++ " courses available:\n\n"
          else introElse
      | none => introElse
    intro ++
    String.join (courses.enum.map fun pr =>
      let c := pr.2
      Nat.repr (pr.1 + 1) ++ ". " ++ c.courseName ++ " (" ++ c.courseId ++ ")\n" ++
      "   Level: " ++ c.estimatedDifficulty ++ " | Credits: " ++
        Nat.repr c.credits ++ "\n" ++
      (match lmap.lookup c.courseId with
       | some l => "   Instructor: " ++ l.name ++ ", " ++ l.jobTitle ++ "\n"
       | none => "") ++
      "   Schedule: " ++ c.classTime ++ "\n" ++
      (match explanations.lookup c.courseId with
       | some (e0 :: _) => "   Why: " ++ e0 ++ "\n"
       | _ => "") ++
      "\n") ++
    (if courses.length = 1 then
      "Would you like to know more about prerequisites, similar courses, or module planning?"
     else if courses.length ≤ 3 then
      "Would you like details on any specific course, or help choosing between them?"
     else
      "I can provide more details on any course. What would you like to know?")

/-- Lines 1674-1729.  The pure pipeline cannot raise, so the `except`
arm is unreachable. -/
def handleCourseRecommendation
    (sortDesc : List (Course × Nat) → List (Course × Nat)) (oi li ci : Fin 4)
    (coursesDf : List Course) (lmap : List (String × Lecturer))
    (query : Option String)
    (major careerGoal experienceLevel program : String) (limit : Nat) :
    RecResult :=
  let majorCourses0 := coursesDf.filter fun c =>
    inS (lowerS major) (lowerS c.category)
  let majorCourses := if majorCourses0 = [] then coursesDf else majorCourses0
  if majorCourses = [] then
    handleUnknownQuery oi li ci (optStr query) major careerGoal
  else
    let scored := scoreCourses sortDesc majorCourses major careerGoal
      experienceLevel program query
    let topCourses := (scored.map Prod.fst).take limit
    if topCourses = [] ∨ topCourses.length < 3 then
      handleUnknownQuery oi li ci (optStr query) major careerGoal
    else
      let explanations := generateDetailedExplanations lmap topCourses major
        careerGoal experienceLevel program query
      ⟨topCourses, explanations,
       generateConversationalResponse lmap topCourses explanations major
         careerGoal query⟩

/-- Lines 147-234: the rule-based dispatch of
`get_intelligent_recommendations` (`use_llm` false, so the LLM branch
is not taken).  The profile `.get` defaults are resolved by the
`StudentProfile` schema; `enrolled_courses` is only read by the LLM
branch. -/
def getIntelligentRecommendations
    (sortDesc : List (Course × Nat) → List (Course × Nat)) (oi li ci : Fin 4)
    (coursesDf : List Course) (lecturers : List Lecturer)
    (lmap : List (String × Lecturer)) (profile : StudentProfile)
    (query : Option String) (limit : Nat) (enrolledCourses : List String) :
    RecResult :=
  let major := profile.major
  let careerGoal := profile.careerGoal
  let experienceLevel := profile.experienceLevel
  let program := profile.program
  let expandedQuery := expandQuery query
  let intent := analyzeQueryIntent query
  if intent = "preparation_advice" then
    handlePreparationAdvice coursesDf lmap (expandedQuery.getD "") major
      careerGoal experienceLevel
  else if intent = "course_type_explanation" then
    handleCourseTypeExplanation coursesDf (expandedQuery.getD "") major
  else if intent = "program_duration" then
    handleProgramDurationQuery coursesDf (expandedQuery.getD "") major program
  else if intent = "general_info" then
    handleGeneralInfoQuery oi li ci coursesDf lmap (expandedQuery.getD "") major
      careerGoal experienceLevel program
  else if intent = "greeting" then
    handleGreeting major careerGoal
  else if intent = "lecturer_info" then
    handleLecturerQuery lecturers (expandedQuery.getD "") major
  else if intent = "schedule_info" then
    handleScheduleQuery coursesDf (expandedQuery.getD "") major
  else if intent = "career_guidance" then
    handleCareerQuery coursesDf lmap (expandedQuery.getD "") major careerGoal
      experienceLevel
  else if intent = "module_planning" then
    handleModulePlanningQuery coursesDf lmap (expandedQuery.getD "") major
      careerGoal experienceLevel program
  else if intent = "attendance_consequences" then
    handleAttendanceConsequences (expandedQuery.getD "") major
  else if intent = "student_issues" then
    handleStudentIssues (expandedQuery.getD "") major
  else if intent = "specific_class_preparation" then
    handleSpecificClassPreparation coursesDf lmap (expandedQuery.getD "") major
  else if intent = "program_info" then
    handleProgramInfoQuery coursesDf lmap (expandedQuery.getD "") major
      careerGoal experienceLevel program
  else
    handleCourseRecommendation sortDesc oi li ci coursesDf lmap expandedQuery
      major careerGoal experienceLevel program limit

lemma str_data_eq_nil {s : String} (h : s.data = []) : s = "" := by
  cases s with
  | mk d => cases h; rfl

lemma ne_empty_left {s : String} (t : String) (h : s ≠ "") : s ++ t ≠ "" := by
  intro he
  apply h
  have hd := congrArg String.data he
  have : s.data ++ t.data = [] := hd
  exact str_data_eq_nil (List.append_eq_nil.1 this).1

lemma unknown_wellformed (oi li ci : Fin 4) (q major cg : String) :
    (handleUnknownQuery oi li ci q major cg).courses = [] ∧
    (handleUnknownQuery oi li ci q major cg).narrative ≠ "" := by
  refine ⟨rfl, ?_⟩
  repeat apply ne_empty_left
  fin_cases oi <;> (repeat apply ne_empty_left) <;> decide

lemma greeting_wellformed (major cg : String) :
    (handleGreeting major cg).courses = [] ∧
    (handleGreeting major cg).narrative ≠ "" := by
  refine ⟨rfl, ?_⟩
  repeat apply ne_empty_left
  decide

lemma attendance_wellformed (q major : String) :
    (handleAttendanceConsequences q major).courses = [] ∧
    (handleAttendanceConsequences q major).narrative ≠ "" := by
  refine ⟨rfl, ?_⟩
  repeat apply ne_empty_left
  decide

lemma studentIssues_wellformed (q major : String) :
    (handleStudentIssues q major).courses = [] ∧
    (handleStudentIssues q major).narrative ≠ "" := by
  refine ⟨rfl, ?_⟩
  repeat apply ne_empty_left
  decide

lemma courseType_empty_wellformed (q major : String) :
    (handleCourseTypeExplanation [] q major).courses = [] ∧
    (handleCourseTypeExplanation [] q major).narrative ≠ "" := by
  refine ⟨rfl, ?_⟩
  repeat apply ne_empty_left
  decide

lemma programDuration_wellformed (df : List Course) (q major program : String) :
    (handleProgramDurationQuery df q major program).courses = [] ∧
    (handleProgramDurationQuery df q major program).narrative ≠ "" := by
  refine ⟨rfl, ?_⟩
  repeat apply ne_empty_left
  decide

lemma preparationAdvice_empty_wellformed (lmap : List (String × Lecturer))
    (q major cg exp : String) :
    (handlePreparationAdvice [] lmap q major cg exp).courses = [] ∧
    (handlePreparationAdvice [] lmap q major cg exp).narrative ≠ "" := by
  refine ⟨rfl, ?_⟩
  repeat apply ne_empty_left
  decide

lemma generalInfo_empty_unknown (oi li ci : Fin 4)
    (lmap : List (String × Lecturer)) (q major cg exp program : String) :
    handleGeneralInfoQuery oi li ci [] lmap q major cg exp program =
      handleUnknownQuery oi li ci q major cg := by
  simp only [handleGeneralInfoQuery, List.filter_nil]
  split
  · rfl
  split
  · rfl
  cases Option.map Prod.fst (List.find? (fun pr =>
    pr.2.any fun k => inS k (stripS (lowerS q))) giMajorKeywords) <;> simp

lemma lecturer_wellformed (lecturers : List Lecturer) (q major : String) :
    (handleLecturerQuery lecturers q major).courses = [] ∧
    (handleLecturerQuery lecturers q major).narrative ≠ "" := by
  simp only [handleLecturerQuery]
  cases List.find? (fun n => inS n (lowerS q))
      (List.map (fun l => lowerS l.name) lecturers) with
  | some person =>
      dsimp only
      cases List.filter (fun l => decide (lowerS l.name = person)) lecturers with
      | nil =>
          cases List.find? (fun pr => inS (lowerS pr.1) (lowerS q))
              (lecturersByProgram lecturers) <;>
            (refine ⟨rfl, ?_⟩
             dsimp only
             repeat apply ne_empty_left
             decide)
      | cons lect tail =>
          refine ⟨rfl, ?_⟩
          dsimp only
          repeat apply ne_empty_left
          decide
  | none =>
      cases List.find? (fun pr => inS (lowerS pr.1) (lowerS q))
          (lecturersByProgram lecturers) <;>
        (refine ⟨rfl, ?_⟩
         dsimp only
         repeat apply ne_empty_left
         decide)

lemma schedule_empty_wellformed (q major : String) :
    (handleScheduleQuery [] q major).courses = [] ∧
    (handleScheduleQuery [] q major).narrative ≠ "" := by
  simp only [handleScheduleQuery, List.filter_nil, List.take_nil, List.map_nil]
  repeat' split
  all_goals
    (refine ⟨rfl, ?_⟩
     try dsimp only
     repeat apply ne_empty_left
     decide)

lemma career_empty_wellformed (lmap : List (String × Lecturer))
    (q major cg exp : String) :
    (handleCareerQuery [] lmap q major cg exp).courses = [] ∧
    (handleCareerQuery [] lmap q major cg exp).narrative ≠ "" := by
  refine ⟨rfl, ?_⟩
  repeat apply ne_empty_left
  decide

lemma modulePlanning_empty_wellformed (lmap : List (String × Lecturer))
    (q major cg exp program : String) :
    (handleModulePlanningQuery [] lmap q major cg exp program).courses = [] ∧
    (handleModulePlanningQuery [] lmap q major cg exp program).narrative ≠ "" := by
  refine ⟨rfl, ?_⟩
  repeat apply ne_empty_left
  decide

lemma specificPrep_empty_wellformed (lmap : List (String × Lecturer))
    (q major : String) :
    (handleSpecificClassPreparation [] lmap q major).courses = [] ∧
    (handleSpecificClassPreparation [] lmap q major).narrative ≠ "" := by
  simp only [handleSpecificClassPreparation, List.find?_nil]
  repeat' split
  all_goals
    (refine ⟨rfl, ?_⟩
     try dsimp only
     repeat apply ne_empty_left
     decide)

lemma programInfo_empty_wellformed (lmap : List (String × Lecturer))
    (q major cg exp program : String) :
    (handleProgramInfoQuery [] lmap q major cg exp program).courses = [] ∧
    (handleProgramInfoQuery [] lmap q major cg exp program).narrative ≠ "" := by
  refine ⟨rfl, ?_⟩
  repeat apply ne_empty_left
  decide

lemma courseRec_empty_unknown
    (sortDesc : List (Course × Nat) → List (Course × Nat)) (oi li ci : Fin 4)
    (lmap : List (String × Lecturer)) (q : Option String)
    (major cg exp program : String) (limit : Nat) :
    handleCourseRecommendation sortDesc oi li ci [] lmap q major cg exp
      program limit = handleUnknownQuery oi li ci (optStr q) major cg := rfl

set_option maxHeartbeats 3200000 in
/-- C9: empty-corpus robustness — with an empty course table, the
classifier still returns a label, the recommendation dispatch returns
an empty course list with a non-empty narrative for every query,
profile, lecturer table, sort order and fallback phrasing, the schedule
generator returns an empty module list, and the conflict checks return
no conflicts. -/
theorem c9_empty_corpus_robust :
    (∀ q : Option String, analyzeQueryIntent q ∈ intentLabels) ∧
    (∀ (sortDesc : List (Course × Nat) → List (Course × Nat)) (oi li ci : Fin 4)
       (lecturers : List Lecturer) (lmap : List (String × Lecturer))
       (profile : StudentProfile) (q : Option String) (limit : Nat)
       (enrolled : List String),
       (getIntelligentRecommendations sortDesc oi li ci [] lecturers lmap profile
          q limit enrolled).courses = [] ∧
       (getIntelligentRecommendations sortDesc oi li ci [] lecturers lmap profile
          q limit enrolled).narrative ≠ "") ∧
    (∀ (shuffle : Nat → List Course → List Course) (hashMajor : String → Nat)
       (now : Int) (profile : StudentProfile) (enrolled completed : List String)
       (limit : Nat),
       generateSmartSchedule shuffle hashMajor now profile enrolled completed
         limit [] = some []) ∧
    (∀ c : Course, checkTimetableConflict [] c = (false, [])) ∧
    getAllTimetableConflicts [] = [] := by
  refine ⟨classifier_total_aux, ?_, ?_, ?_, rfl⟩
  · intro sortDesc oi li ci lecturers lmap profile q limit enrolled
    simp only [getIntelligentRecommendations]
    by_cases h1 : analyzeQueryIntent q = "preparation_advice"
    · rw [if_pos h1]
      exact preparationAdvice_empty_wellformed _ _ _ _ _
    rw [if_neg h1]
    by_cases h2 : analyzeQueryIntent q = "course_type_explanation"
    · rw [if_pos h2]
      exact courseType_empty_wellformed _ _
    rw [if_neg h2]
    by_cases h3 : analyzeQueryIntent q = "program_duration"
    · rw [if_pos h3]
      exact programDuration_wellformed [] _ _ _
    rw [if_neg h3]
    by_cases h4 : analyzeQueryIntent q = "general_info"
    · rw [if_pos h4]
      rw [generalInfo_empty_unknown]
      exact unknown_wellformed _ _ _ _ _ _
    rw [if_neg h4]
    by_cases h5 : analyzeQueryIntent q = "greeting"
    · rw [if_pos h5]
      exact greeting_wellformed _ _
    rw [if_neg h5]
    by_cases h6 : analyzeQueryIntent q = "lecturer_info"
    · rw [if_pos h6]
      exact lecturer_wellformed _ _ _
    rw [if_neg h6]
    by_cases h7 : analyzeQueryIntent q = "schedule_info"
    · rw [if_pos h7]
      exact schedule_empty_wellformed _ _
    rw [if_neg h7]
    by_cases h8 : analyzeQueryIntent q = "career_guidance"
    · rw [if_pos h8]
      exact career_empty_wellformed _ _ _ _ _
    rw [if_neg h8]
    by_cases h9 : analyzeQueryIntent q = "module_planning"
    · rw [if_pos h9]
      exact modulePlanning_empty_wellformed _ _ _ _ _ _
    rw [if_neg h9]
    by_cases h10 : analyzeQueryIntent q = "attendance_consequences"
    · rw [if_pos h10]
      exact attendance_wellformed _ _
    rw [if_neg h10]
    by_cases h11 : analyzeQueryIntent q = "student_issues"
    · rw [if_pos h11]
      exact studentIssues_wellformed _ _
    rw [if_neg h11]
    by_cases h12 : analyzeQueryIntent q = "specific_class_preparation"
    · rw [if_pos h12]
      exact specificPrep_empty_wellformed _ _ _
    rw [if_neg h12]
    by_cases h13 : analyzeQueryIntent q = "program_info"
    · rw [if_pos h13]
      exact programInfo_empty_wellformed _ _ _ _ _ _
    rw [if_neg h13]
    rw [courseRec_empty_unknown]
    exact unknown_wellformed _ _ _ _ _ _
  · intro shuffle hashMajor now profile enrolled completed limit
    rfl
  · intro c
    rfl

/-- C8, counterexample to the claim as stated: the schedule handler
with an empty corpus has an empty course subset yet returns its own
overview narrative — not the unknown-query handler\x27s result, for any
of the 64 possible random phrasings of that handler. -/
theorem c8_counterexample :
    (handleScheduleQuery [] "morning classes" "Computer Science").courses = [] ∧
    ((List.finRange 4).all fun oi => (List.finRange 4).all fun li =>
      (List.finRange 4).all fun ci =>
        decide (handleScheduleQuery [] "morning classes" "Computer Science" ≠
          handleUnknownQuery oi li ci "morning classes" "Computer Science" ""))
      = true := by
  decide

/-- C8 (amended): the empty-result fallback holds for the two paths the
code actually wires to it — the general-info handler returns exactly
the unknown-query result whenever its relevance filter over the corpus
is empty, and the generic recommendation path returns exactly the
unknown-query result whenever fewer than 3 scored courses remain; other
handlers keep their own narrative even with an empty course subset. -/
theorem c8_empty_fallback :
    (∀ (oi li ci : Fin 4) (df : List Course) (lmap : List (String × Lecturer))
       (q major cg exp prog : String),
       (df.filter fun c =>
           inS (stripS (lowerS q)) (lowerS c.courseName) ∨
           inS (stripS (lowerS q)) (lowerS c.courseDescription) ∨
           inS (stripS (lowerS q)) (lowerS c.skillsCoveredStr) ∨
           inS (stripS (lowerS q)) (lowerS c.category)) = [] →
       handleGeneralInfoQuery oi li ci df lmap q major cg exp prog =
         handleUnknownQuery oi li ci q major cg) ∧
    (∀ (sortDesc : List (Course × Nat) → List (Course × Nat)) (oi li ci : Fin 4)
       (df : List Course) (lmap : List (String × Lecturer)) (q : Option String)
       (major cg exp prog : String) (limit : Nat),
       (((scoreCourses sortDesc
           (if df.filter (fun c => inS (lowerS major) (lowerS c.category)) = []
            then df
            else df.filter fun c => inS (lowerS major) (lowerS c.category))
           major cg exp prog q).map Prod.fst).take limit).length < 3 →
       handleCourseRecommendation sortDesc oi li ci df lmap q major cg exp
         prog limit = handleUnknownQuery oi li ci (optStr q) major cg) := by
  constructor
  · intro oi li ci df lmap q major cg exp prog h
    simp only [handleGeneralInfoQuery]
    split
    · rfl
    split
    · rfl
    rw [h]
    cases Option.map Prod.fst (List.find? (fun pr =>
      pr.2.any fun k => inS k (stripS (lowerS q))) giMajorKeywords) <;> simp
  · intro sortDesc oi li ci df lmap q major cg exp prog limit h
    simp only [handleCourseRecommendation]
    split <;> rename_i hme
    · rw [if_pos hme] at h
      split
      · rfl
      all_goals rw [if_pos (Or.inr h)]
    · rw [if_neg hme] at h
      split
      · rfl
      all_goals first
        | rw [if_pos (Or.inr h)]
        | (rename_i hneg
           exact absurd (Or.inr h) hneg)

/-- A concrete instantiation of both fallback paths. -/
theorem c8_empty_fallback_witness :
    handleGeneralInfoQuery 0 1 2 [] [] "quantum computing" "Computer Science"
        "" "Beginner" "Bachelor" =
      handleUnknownQuery 0 1 2 "quantum computing" "Computer Science" "" ∧
    handleCourseRecommendation id 0 1 2 [courseCS1] [] none "Computer Science"
        "" "Beginner" "Bachelor" 2 =
      handleUnknownQuery 0 1 2 "None" "Computer Science" "" :=
  ⟨c8_empty_fallback.1 0 1 2 [] [] "quantum computing" "Computer Science" ""
     "Beginner" "Bachelor" (by decide),
   c8_empty_fallback.2 id 0 1 2 [courseCS1] [] none "Computer Science" ""
     "Beginner" "Bachelor" 2 (by decide)⟩
